import Mathlib

/-!
# Collision / locomotion loop of the stereoscopic character viewer

A shallow embedding of `src/js/main.js`.  Module-level mutable variables of the
script become the fields of one record `Sim`; every function of the script that
mutates them becomes a function `Sim → Sim`.

Numbers: JavaScript doubles are idealised as the elements of a linearly ordered
field `α` (exact arithmetic, no rounding, no NaN).  The functions of the
JavaScript `Math` object that the script calls are collected in `JSMath`;
theorems that depend on what they compute instantiate them with the real
functions (`Real.exp`, `Real.sin`, `Real.cos`, `Real.sqrt`, `Real.pi`).

Library calls (`THREE.Vector3`, `Capsule`, `Octree`, `AnimationAction`,
`AnimationMixer`) are embedded by what the methods used by the script do to the
fields the script reads.  The world octree is static after loading, so its two
queries are functions of the query shape.
-/

namespace Stereo3D

/-! ## Numbers and vectors -/

/-- The part of the JavaScript `Math` object used by the script. -/
structure JSMath (α : Type) where
  exp : α → α
  sin : α → α
  cos : α → α
  sqrt : α → α
  PI : α

/-- A `THREE.Vector3`. -/
structure Vec3 (α : Type) where
  x : α
  y : α
  z : α
deriving DecidableEq, Repr

namespace Vec3

variable {α : Type} [LinearOrderedField α]

/-- Library method `new THREE.Vector3()`. -/
def zero : Vec3 α := ⟨0, 0, 0⟩

/-- Library method `Vector3.add`. -/
def add (a b : Vec3 α) : Vec3 α := ⟨a.x + b.x, a.y + b.y, a.z + b.z⟩

/-- Library method `Vector3.sub` / `subVectors`. -/
def sub (a b : Vec3 α) : Vec3 α := ⟨a.x - b.x, a.y - b.y, a.z - b.z⟩

/-- Library method `Vector3.multiplyScalar`. -/
def multiplyScalar (a : Vec3 α) (s : α) : Vec3 α := ⟨a.x * s, a.y * s, a.z * s⟩

/-- Library method `Vector3.addScaledVector(v, s)`: `this += v * s`. -/
def addScaledVector (a v : Vec3 α) (s : α) : Vec3 α :=
  ⟨a.x + v.x * s, a.y + v.y * s, a.z + v.z * s⟩

/-- Library method `Vector3.dot`. -/
def dot (a b : Vec3 α) : α := a.x * b.x + a.y * b.y + a.z * b.z

/-- Library method `Vector3.crossVectors(a, b)`. -/
def crossVectors (a b : Vec3 α) : Vec3 α :=
  ⟨a.y * b.z - a.z * b.y, a.z * b.x - a.x * b.z, a.x * b.y - a.y * b.x⟩

/-- Library method `Vector3.cross(v)`: `crossVectors(this, v)`.  The method has one
parameter; further arguments of a call are evaluated and ignored. -/
def cross (a v : Vec3 α) : Vec3 α := crossVectors a v

/-- Library method `Vector3.lengthSq`. -/
def lengthSq (a : Vec3 α) : α := a.x * a.x + a.y * a.y + a.z * a.z

/-- Library method `Vector3.length`: `Math.sqrt(x*x + y*y + z*z)`. -/
def length (M : JSMath α) (a : Vec3 α) : α := M.sqrt (lengthSq a)

/-- Library method `Vector3.divideScalar(s)`: `multiplyScalar(1 / s)`. -/
def divideScalar (a : Vec3 α) (s : α) : Vec3 α := multiplyScalar a (1 / s)

/-- Library method `Vector3.normalize`: `divideScalar(this.length() || 1)`; a zero length is
replaced by 1, so the zero vector is returned unchanged. -/
def normalize (M : JSMath α) (a : Vec3 α) : Vec3 α :=
  divideScalar a (if length M a = 0 then 1 else length M a)

/-- Library method `Vector3.lerp(v, alpha)`: `this += (v - this) * alpha`. -/
def lerp (a v : Vec3 α) (alpha : α) : Vec3 α :=
  ⟨a.x + (v.x - a.x) * alpha, a.y + (v.y - a.y) * alpha, a.z + (v.z - a.z) * alpha⟩

end Vec3

/-! ## Collision shapes and the world octree -/

/-- A `Capsule` of `three/addons/math/Capsule.js`: a segment and a radius. -/
structure Capsule (α : Type) where
  start : Vec3 α
  end_ : Vec3 α
  radius : α
deriving DecidableEq, Repr

/-- Library method `Capsule.translate(v)`: `start.add(v); end.add(v)`. -/
def Capsule.translate {α : Type} [LinearOrderedField α] (c : Capsule α) (v : Vec3 α) :
    Capsule α :=
  { c with start := c.start.add v, end_ := c.end_.add v }

/-- The object returned by an octree query that hits: `{ normal, depth }`. -/
structure Contact (α : Type) where
  normal : Vec3 α
  depth : α
deriving DecidableEq, Repr

/-- The world octree as seen by the script: the two queries it answers.  A query
that misses returns `false` in JavaScript, `none` here.  `sphereIntersect` takes
the centre and the radius of the sphere. -/
structure Octree (α : Type) where
  capsuleIntersect : Capsule α → Option (Contact α)
  sphereIntersect : Vec3 α → α → Option (Contact α)

/-! ## Animation objects -/

/-- The fields of a `THREE.AnimationAction` touched by `stop`, `reset`,
`setEffectiveWeight`, `setEffectiveTimeScale`, `enabled =` and `play`.
`fading` / `warping` say whether a weight / time-scale interpolant is installed;
`scheduled` says whether the mixer has the action in its active list. -/
structure AnimationAction (α : Type) where
  paused : Bool
  enabled : Bool
  time : α
  loopCount : Int
  startTime : Option α
  weight : α
  effectiveWeight : α
  timeScale : α
  effectiveTimeScale : α
  fading : Bool
  warping : Bool
  scheduled : Bool
deriving DecidableEq, Repr

namespace AnimationAction

variable {α : Type} [LinearOrderedField α]

/-- Library method `AnimationAction.reset`: `paused = false; enabled = true; time = 0;
_loopCount = -1; _startTime = null; stopFading().stopWarping()`. -/
def reset (a : AnimationAction α) : AnimationAction α :=
  { a with paused := false, enabled := true, time := 0, loopCount := -1,
           startTime := none, fading := false, warping := false }

/-- Library method `AnimationAction.stop`: `_mixer._deactivateAction(this); reset()`. -/
def stop (a : AnimationAction α) : AnimationAction α :=
  reset { a with scheduled := false }

/-- Library method `AnimationAction.setEffectiveWeight(w)`:
`weight = w; _effectiveWeight = enabled ? w : 0; stopFading()`. -/
def setEffectiveWeight (a : AnimationAction α) (w : α) : AnimationAction α :=
  { a with weight := w, effectiveWeight := if a.enabled then w else 0, fading := false }

/-- Library method `AnimationAction.setEffectiveTimeScale(t)`:
`timeScale = t; _effectiveTimeScale = paused ? 0 : t; stopWarping()`. -/
def setEffectiveTimeScale (a : AnimationAction α) (t : α) : AnimationAction α :=
  { a with timeScale := t, effectiveTimeScale := if a.paused then 0 else t,
           warping := false }

/-- Library method `AnimationAction.play`: `_mixer._activateAction(this)`. -/
def play (a : AnimationAction α) : AnimationAction α :=
  { a with scheduled := true }

end AnimationAction

/-- A camera object: its `position` and the point last passed to `lookAt`
(`none` while `lookAt` has not been called; the orientation is the library's
function of `position` and that point). -/
structure Camera (α : Type) where
  position : Vec3 α
  lookAt : Option (Vec3 α)
deriving DecidableEq, Repr

/-- The transform of the loaded character model that the script writes. -/
structure Model (α : Type) where
  position : Vec3 α
  rotation : Vec3 α
deriving DecidableEq, Repr

/-! ## Program state -/

/-- A value that the lookup `animations[name]` can yield and that the variable
`currentAnimation` can hold: an `AnimationAction` object, given by its identity in
the action store, or the member of `Object.prototype` that the plain object
`animations = {}` inherits under `name` (a function, or the prototype object
itself for `__proto__`), which is not an action. -/
inductive AnimationRef where
  | action (id : Nat)
  | inherited (name : String)
deriving DecidableEq, Repr

/-- The property names every plain JavaScript object inherits from
`Object.prototype`; each of them holds a truthy value. -/
def objectPrototypeNames : List String :=
  ["constructor", "__defineGetter__", "__defineSetter__", "hasOwnProperty",
   "__lookupGetter__", "__lookupSetter__", "isPrototypeOf", "propertyIsEnumerable",
   "toString", "valueOf", "__proto__", "toLocaleString"]

/-- The module-level variables of `main.js` that the simulation reads or writes.
`mixer` holds the clock `AnimationMixer.time` (`none` while `mixer` is `null`);
`actions` is the store of `AnimationAction` objects, addressed by identity;
`animations` holds the own properties of the clip table (name to action), the
entries the loader callback assigns; `currentAnimation` is the value of the
variable of that name (`none` for `null`). -/
structure Sim (α : Type) where
  camera : Camera α
  isVRMode : Bool
  cameraLeft : Camera α
  cameraRight : Camera α
  playerCollider : Capsule α
  playerVelocity : Vec3 α
  playerOnFloor : Bool
  playerModel : Option (Model α)
  mixer : Option α
  actions : Nat → AnimationAction α
  animations : String → Option Nat
  currentAnimation : Option AnimationRef

section Program

variable {α : Type} [LinearOrderedField α]

/-- Source constant `const eyeDistance = 0.05`. -/
def eyeDistance : α := 5 / 100

/-- Source constant `const GRAVITY = 30`. -/
def GRAVITY : α := 30

/-- Source constant `const STEPS_PER_FRAME = 5`. -/
def STEPS_PER_FRAME : Nat := 5

/-- Source constant `const cameraAngleX = 0.2`. -/
def cameraAngleX : α := 2 / 10

/-- Source constant `const cameraAngleY = Math.PI`. -/
def cameraAngleY (M : JSMath α) : α := M.PI

/-- Source constant `const cameraDistance = 0.4`. -/
def cameraDistance : α := 4 / 10

/-- Source constant `const cameraHeight = 0.15`. -/
def cameraHeight : α := 15 / 100

/-- The pose given to `playerCollider` at line 60 and again by
`teleportPlayerIfOob`: start `(0, 0.0, 0)`, end `(0, 0.3, 0)`, radius `0.07`. -/
def defaultCollider : Capsule α := ⟨⟨0, 0, 0⟩, ⟨0, 3 / 10, 0⟩, 7 / 100⟩

/-- The state after the top-level statements of the script have run and before
any asset has loaded. -/
def initialSim : Sim α where
  camera := ⟨Vec3.zero, none⟩
  isVRMode := false
  cameraLeft := ⟨Vec3.zero, none⟩
  cameraRight := ⟨Vec3.zero, none⟩
  playerCollider := defaultCollider
  playerVelocity := Vec3.zero
  playerOnFloor := false
  playerModel := none
  mixer := none
  actions := fun _ => ⟨false, true, 0, -1, none, 1, 1, 1, 1, false, false, false⟩
  animations := fun _ => none
  currentAnimation := none

/-! ## The functions of the script -/

/-- The result of a call that may end by throwing: the state it leaves behind and
whether it ended with a `TypeError`. -/
structure Completion (α : Type) where
  state : Sim α
  threw : Bool

/-- The value of the expression `animations[name]`: the own property if the clip
table has one, otherwise the member inherited from `Object.prototype` if `name`
is one of its property names, otherwise `undefined` (`none`). -/
def animationsGet (s : Sim α) (name : String) : Option AnimationRef :=
  match s.animations name with
  | some id => some (AnimationRef.action id)
  | none => if name ∈ objectPrototypeNames then some (AnimationRef.inherited name) else none

/-- Lines 185-192 of `playAnimation`: `currentAnimation = animations[animationName]`
followed by `reset()`, `setEffectiveWeight(1.0)`, `setEffectiveTimeScale(1.0)`,
`enabled = true` and `play()`.  When the value assigned is not an action, the call
of `reset` on it throws a `TypeError` after the assignment. -/
def startAnimation (next : AnimationRef) (s : Sim α) : Completion α :=
  match next with
  | AnimationRef.inherited _ => ⟨{ s with currentAnimation := some next }, true⟩
  | AnimationRef.action n =>
    let a := (((s.actions n).reset.setEffectiveWeight 1).setEffectiveTimeScale 1)
    let a := { a with enabled := true }
    ⟨{ s with actions := Function.update s.actions n a.play,
              currentAnimation := some next }, false⟩

/-- Source function `playAnimation(animationName)` (lines 167-195).  Console
output is not part of the state.  In the block
`if (currentAnimation) { currentAnimation.stop(); currentAnimation.reset(); }`
a current value that is not an action has no `stop` method, so the call throws a
`TypeError` before anything is written. -/
def playAnimation (animationName : String) (s : Sim α) : Completion α :=
  match s.mixer, animationsGet s animationName with
  | none, _ => ⟨s, false⟩
  | some _, none => ⟨s, false⟩
  | some _, some next =>
    if s.currentAnimation = some next then ⟨s, false⟩
    else
      match s.currentAnimation with
      | some (AnimationRef.inherited _) => ⟨s, true⟩
      | some (AnimationRef.action cur) =>
        startAnimation next
          { s with actions := Function.update s.actions cur ((s.actions cur).stop.reset) }
      | none => startAnimation next s

/-- Source function `playerCollisions()` (lines 386-396). -/
def playerCollisions (W : Octree α) (s : Sim α) : Sim α :=
  match W.capsuleIntersect s.playerCollider with
  | none => { s with playerOnFloor := false }
  | some result =>
    let onFloor : Bool := decide (result.normal.y > 0)
    { s with
      playerOnFloor := onFloor,
      playerVelocity :=
        (if !onFloor then
          s.playerVelocity.addScaledVector result.normal
            (-(result.normal.dot s.playerVelocity))
        else s.playerVelocity),
      playerCollider :=
        s.playerCollider.translate (result.normal.multiplyScalar result.depth) }

/-- The velocity update of `updatePlayer(deltaTime)` (lines 400-405): the damping
factor, the gravity branch, and `playerVelocity.addScaledVector(playerVelocity,
damping)`. -/
def updatePlayerVelocity (M : JSMath α) (deltaTime : α) (s : Sim α) : Sim α :=
  let damping : α := M.exp (-4 * deltaTime) - 1
  let v : Vec3 α :=
    if !s.playerOnFloor then
      { s.playerVelocity with y := s.playerVelocity.y - GRAVITY * deltaTime }
    else s.playerVelocity
  let damping : α := if !s.playerOnFloor then damping * (1 / 10) else damping
  { s with playerVelocity := v.addScaledVector v damping }

/-- The position update of `updatePlayer(deltaTime)` (lines 406-407):
`playerCollider.translate(playerVelocity.clone().multiplyScalar(deltaTime))`. -/
def updatePlayerPosition (deltaTime : α) (s : Sim α) : Sim α :=
  { s with playerCollider :=
      s.playerCollider.translate (s.playerVelocity.multiplyScalar deltaTime) }

/-- The block `if (playerModel) { ... }` of `updatePlayer` (lines 411-421),
repeated in `animate` (lines 531-540): the model is placed 0.15 below the
capsule end and its rotation is zeroed. -/
def syncPlayerModel (s : Sim α) : Sim α :=
  match s.playerModel with
  | none => s
  | some _ =>
    let playerPosition : Vec3 α :=
      { s.playerCollider.end_ with y := s.playerCollider.end_.y - 15 / 100 }
    { s with playerModel := some ⟨playerPosition, ⟨0, 0, 0⟩⟩ }

/-- The values computed by `updateThirdPersonCamera` before it writes a camera
(lines 430-455). -/
structure CameraRig (α : Type) where
  idealCameraPosition : Vec3 α
  finalCameraPosition : Vec3 α
  lookAtPosition : Vec3 α
  lookDirection : Vec3 α
  rightDirection : Vec3 α

/-- Lines 430-455 of `updateThirdPersonCamera`, as a function of
`playerCollider.end`.  At line 455 the receiver of `cross` is a fresh
`new THREE.Vector3()`, the zero vector, and `lookDirection` is the argument the
method reads; the second argument `new THREE.Vector3(0, 1, 0)` is not read. -/
def cameraRig (M : JSMath α) (W : Octree α) (playerPosition : Vec3 α) : CameraRig α :=
  let idealCameraPosition : Vec3 α :=
    ⟨playerPosition.x + M.sin (cameraAngleY M) * M.cos cameraAngleX * cameraDistance,
     playerPosition.y + cameraHeight + M.sin cameraAngleX * cameraDistance,
     playerPosition.z + M.cos (cameraAngleY M) * M.cos cameraAngleX * cameraDistance⟩
  let finalCameraPosition : Vec3 α :=
    match W.sphereIntersect idealCameraPosition (5 / 100) with
    | some collision =>
      let direction := Vec3.normalize M (playerPosition.sub idealCameraPosition)
      idealCameraPosition.addScaledVector direction (collision.depth + 5 / 100)
    | none => idealCameraPosition
  let lookAtPosition : Vec3 α := { playerPosition with y := playerPosition.y + 5 / 100 }
  let lookDirection := Vec3.normalize M (lookAtPosition.sub finalCameraPosition)
  let rightDirection := Vec3.normalize M (Vec3.cross Vec3.zero lookDirection)
  ⟨idealCameraPosition, finalCameraPosition, lookAtPosition, lookDirection, rightDirection⟩

/-- Source function `updateThirdPersonCamera()` (lines 427-473). -/
def updateThirdPersonCamera (M : JSMath α) (W : Octree α) (s : Sim α) : Sim α :=
  let rig := cameraRig M W s.playerCollider.end_
  if s.isVRMode then
    let eyeOffset := rig.rightDirection.multiplyScalar eyeDistance
    { s with
      cameraLeft := ⟨rig.finalCameraPosition.sub eyeOffset, some rig.lookAtPosition⟩,
      cameraRight := ⟨rig.finalCameraPosition.add eyeOffset, some rig.lookAtPosition⟩ }
  else
    { s with
      camera := ⟨s.camera.position.lerp rig.finalCameraPosition (1 / 10),
                 some rig.lookAtPosition⟩ }

/-- Source function `updatePlayer(deltaTime)` (lines 398-425). -/
def updatePlayer (M : JSMath α) (W : Octree α) (deltaTime : α) (s : Sim α) : Sim α :=
  updateThirdPersonCamera M W
    (syncPlayerModel
      (playerCollisions W
        (updatePlayerPosition deltaTime (updatePlayerVelocity M deltaTime s))))

/-- Source function `controls(deltaTime)` (lines 475-478): empty body. -/
def controls (_deltaTime : α) (s : Sim α) : Sim α := s

/-- Source function `teleportPlayerIfOob()` (lines 480-488). -/
def teleportPlayerIfOob (s : Sim α) : Sim α :=
  if s.camera.position.y ≤ -25 then
    { s with
      playerCollider := ⟨⟨0, 0, 0⟩, ⟨0, 3 / 10, 0⟩, 7 / 100⟩,
      camera := { s.camera with position := ⟨0, 3 / 10, 0⟩ },
      playerVelocity := ⟨0, 0, 0⟩ }
  else s

/-- The body of the `for` loop of `animate` (lines 520-522). -/
def subStep (M : JSMath α) (W : Octree α) (deltaTime : α) (s : Sim α) : Sim α :=
  teleportPlayerIfOob (updatePlayer M W deltaTime (controls deltaTime s))

/-- Library method `mixer.update(delta)`: the mixer clock advances by `delta` (the mixer's own
`timeScale` is never changed by the script and stays 1). -/
def mixerUpdate (delta : α) (s : Sim α) : Sim α :=
  match s.mixer with
  | none => s
  | some t => { s with mixer := some (t + delta) }

/-- The sub-step time computed at line 518 from the value `frameDeltaTime`
returned by `clock.getDelta()`. -/
def subStepTime (frameDeltaTime : α) : α :=
  min (5 / 100) frameDeltaTime / (STEPS_PER_FRAME : α)

/-- Source function `animate()` (lines 517-568), given the value returned by `clock.getDelta()`.
Rendering and the frame counter do not write the state. -/
def animate (M : JSMath α) (W : Octree α) (frameDeltaTime : α) (s : Sim α) : Sim α :=
  let deltaTime := subStepTime frameDeltaTime
  let s := (subStep M W deltaTime)^[STEPS_PER_FRAME] s
  let s := mixerUpdate (deltaTime * (STEPS_PER_FRAME : α)) s
  syncPlayerModel s

/-- Specification measure used for the push-out property: the signed distance,
along the unit normal `n`, from the plane `{ p | n · p = k }` to the point of the
capsule that lies farthest against `n` (negative when the capsule penetrates the
plane). -/
def signedDistance (n : Vec3 α) (k : α) (c : Capsule α) : α :=
  min (n.dot c.start) (n.dot c.end_) - c.radius - k

/-- A world whose capsule query gives the same answer `c` for every capsule and
whose sphere query never hits. -/
def constantWorld (c : Option (Contact α)) : Octree α :=
  ⟨fun _ => c, fun _ _ => none⟩

/-- The flat floor of the grounded-rest scenario: every capsule query reports the
normal `(0, 1, 0)` with depth `0`. -/
def flatFloor : Octree α := constantWorld (some ⟨⟨0, 1, 0⟩, 0⟩)

/-- States reachable from the initial state by calls of `updatePlayer`,
`playerCollisions` and `teleportPlayerIfOob`, each with its own sub-step time and
its own world answers. -/
inductive Reachable (M : JSMath α) : Sim α → Prop
  | init : Reachable M initialSim
  | updatePlayer (W : Octree α) (deltaTime : α) {s : Sim α} :
      Reachable M s → Reachable M (updatePlayer M W deltaTime s)
  | playerCollisions (W : Octree α) {s : Sim α} :
      Reachable M s → Reachable M (playerCollisions W s)
  | teleportPlayerIfOob {s : Sim α} :
      Reachable M s → Reachable M (teleportPlayerIfOob s)

/-- The state right after the dance clip has been registered by the loader
callback (lines 139-142) and before `playAnimation('hipHopDancing')` runs: the
mixer exists, the clip table has the one entry, no clip is current. -/
def danceLoaded : Sim α :=
  { (initialSim : Sim α) with
    mixer := some 0,
    animations := fun name => if name = "hipHopDancing" then some 0 else none }

/-- The capsule is a rigid copy of its initial shape: radius `0.07` and
`end - start = (0, 0.3, 0)`. -/
def Rigid (c : Capsule α) : Prop :=
  c.radius = 7 / 100 ∧ c.end_.sub c.start = ⟨0, 3 / 10, 0⟩

/-- Library method `Vector3.distanceTo`: `Math.sqrt` of the squared distance. -/
def Vec3.distanceTo (M : JSMath α) (a b : Vec3 α) : α := M.sqrt (Vec3.lengthSq (a.sub b))

/-- The initial state with the VR button pressed (`enterVRMode` sets
`isVRMode = true`; its other effects are on the page, not on the simulation). -/
def vrStart : Sim α := { (initialSim : Sim α) with isVRMode := true }

/-- The body stands still on the floor with capsule `c` while the mono camera is
at `cam`. -/
def RestAt (c : Capsule α) (cam : Vec3 α) (s : Sim α) : Prop :=
  s.playerVelocity = ⟨0, 0, 0⟩ ∧ s.playerOnFloor = true ∧ s.playerCollider = c ∧
  s.isVRMode = false ∧ s.camera.position = cam

/-- The initial state with the floor-contact flag already set. -/
def groundedStart : Sim α := { (initialSim : Sim α) with playerOnFloor := true }

/-- A state in mono mode with the camera at the origin and the body standing
still with its capsule end-point at height `h` (the capsule is the default one
moved vertically). -/
def restingAt (h : α) : Sim α :=
  { (initialSim : Sim α) with
    playerCollider := ⟨⟨0, h - 3 / 10, 0⟩, ⟨0, h, 0⟩, 7 / 100⟩,
    playerOnFloor := true }

/-- A run of consecutive frames: `animate` is called once per frame, each frame
with its own world answers and its own value of `clock.getDelta()`. -/
def runFrames (M : JSMath α) : List (Octree α × α) → Sim α → Sim α
  | [], s => s
  | (W, frameDeltaTime) :: rest, s => runFrames M rest (animate M W frameDeltaTime s)

end Program

/-! ## Collision resolver -/

section Resolver

variable {α : Type} [LinearOrderedField α]

theorem dot_add_multiplyScalar (n p : Vec3 α) (d : α) :
    n.dot (p.add (n.multiplyScalar d)) = n.dot p + d * n.dot n := by
  simp only [Vec3.dot, Vec3.add, Vec3.multiplyScalar]
  ring

theorem signedDistance_translate (n : Vec3 α) (k d : α) (c : Capsule α) :
    signedDistance n k (c.translate (n.multiplyScalar d))
      = signedDistance n k c + d * n.dot n := by
  simp only [signedDistance, Capsule.translate, dot_add_multiplyScalar,
    min_add_add_right]
  ring

/-- C3. One pass of `playerCollisions` with a reported contact `(n, d)` moves
both capsule end-points by `n * d` and keeps the radius, whatever the sign of
`n.y`; for a unit normal and `d ≥ 0`, a capsule whose signed distance along `n` to
a plane was `-d` has signed distance `≥ 0` (indeed `0`) to it afterwards.  With no
reported contact the capsule is unchanged. -/
theorem playerCollisions_push_out (W : Octree α) (s : Sim α) :
    (∀ n d, W.capsuleIntersect s.playerCollider = some ⟨n, d⟩ →
      (playerCollisions W s).playerCollider.start
          = s.playerCollider.start.add (n.multiplyScalar d) ∧
      (playerCollisions W s).playerCollider.end_
          = s.playerCollider.end_.add (n.multiplyScalar d) ∧
      (playerCollisions W s).playerCollider.radius = s.playerCollider.radius ∧
      (n.dot n = 1 → 0 ≤ d → ∀ k, signedDistance n k s.playerCollider = -d →
        signedDistance n k (playerCollisions W s).playerCollider = 0 ∧
        0 ≤ signedDistance n k (playerCollisions W s).playerCollider)) ∧
    (W.capsuleIntersect s.playerCollider = none →
      (playerCollisions W s).playerCollider = s.playerCollider) := by
  refine ⟨?_, ?_⟩
  · intro n d h
    have hc : (playerCollisions W s).playerCollider
        = s.playerCollider.translate (n.multiplyScalar d) := by
      simp [playerCollisions, h]
    refine ⟨by rw [hc]; rfl, by rw [hc]; rfl, by rw [hc]; rfl, ?_⟩
    intro hn _ k hk
    have h0 : signedDistance n k (playerCollisions W s).playerCollider = 0 := by
      rw [hc, signedDistance_translate, hk, hn]
      ring
    exact ⟨h0, le_of_eq h0.symm⟩
  · intro h
    simp [playerCollisions, h]

/-- C7. With a reported contact of unit normal `n`, `playerCollisions` replaces
the velocity `v` by `v - n * dot(n, v)` when `n.y ≤ 0`, after which
`dot(n, velocity) = 0`; when `n.y > 0`, or when nothing is reported, the velocity
is unchanged. -/
theorem playerCollisions_velocity_projection (W : Octree α) (s : Sim α) :
    (∀ n d, W.capsuleIntersect s.playerCollider = some ⟨n, d⟩ →
      (n.y ≤ 0 →
        (playerCollisions W s).playerVelocity
            = s.playerVelocity.sub (n.multiplyScalar (n.dot s.playerVelocity)) ∧
        (n.dot n = 1 → n.dot (playerCollisions W s).playerVelocity = 0)) ∧
      (n.y > 0 → (playerCollisions W s).playerVelocity = s.playerVelocity)) ∧
    (W.capsuleIntersect s.playerCollider = none →
      (playerCollisions W s).playerVelocity = s.playerVelocity) := by
  refine ⟨?_, ?_⟩
  · intro n d h
    refine ⟨?_, ?_⟩
    · intro hy
      have hv : (playerCollisions W s).playerVelocity
          = s.playerVelocity.sub (n.multiplyScalar (n.dot s.playerVelocity)) := by
        simp only [playerCollisions, h, gt_iff_lt, not_lt.mpr hy, decide_False,
          Bool.not_false, if_true, Vec3.addScaledVector, Vec3.sub, Vec3.multiplyScalar]
        congr 1 <;> ring
      refine ⟨hv, ?_⟩
      intro hn
      rw [hv]
      have : n.dot (s.playerVelocity.sub (n.multiplyScalar (n.dot s.playerVelocity)))
          = n.dot s.playerVelocity - n.dot s.playerVelocity * n.dot n := by
        simp only [Vec3.dot, Vec3.sub, Vec3.multiplyScalar]
        ring
      rw [this, hn]
      ring
    · intro hy
      simp [playerCollisions, h, hy]
  · intro h
    simp [playerCollisions, h]

/-- Witness for C3: a contact of depth 1/2 from below on the initial capsule, and
a world that reports nothing. -/
theorem playerCollisions_push_out_witness :
    0 ≤ signedDistance (⟨0, 1, 0⟩ : Vec3 ℚ) (43 / 100)
          (playerCollisions (constantWorld (some ⟨⟨0, 1, 0⟩, 1 / 2⟩))
            initialSim).playerCollider ∧
    (playerCollisions (constantWorld none) (initialSim : Sim ℚ)).playerCollider
      = (initialSim : Sim ℚ).playerCollider :=
  ⟨(((playerCollisions_push_out (constantWorld (some ⟨⟨0, 1, 0⟩, 1 / 2⟩))
        (initialSim : Sim ℚ)).1 ⟨0, 1, 0⟩ (1 / 2) rfl).2.2.2
      (by norm_num [Vec3.dot]) (by norm_num) (43 / 100)
      (by norm_num [signedDistance, initialSim, defaultCollider, Vec3.dot])).2,
   (playerCollisions_push_out (constantWorld none) (initialSim : Sim ℚ)).2 rfl⟩

/-- Witness for C7: a wall contact with normal `(1, 0, 0)` met at velocity
`(3, 4, 0)`, a floor contact, and a world that reports nothing. -/
theorem playerCollisions_velocity_projection_witness :
    Vec3.dot (⟨1, 0, 0⟩ : Vec3 ℚ)
        (playerCollisions (constantWorld (some ⟨⟨1, 0, 0⟩, 0⟩))
          { (initialSim : Sim ℚ) with playerVelocity := ⟨3, 4, 0⟩ }).playerVelocity = 0 ∧
    (playerCollisions flatFloor
        { (initialSim : Sim ℚ) with playerVelocity := ⟨3, 4, 0⟩ }).playerVelocity
      = ⟨3, 4, 0⟩ ∧
    (playerCollisions (constantWorld none)
        { (initialSim : Sim ℚ) with playerVelocity := ⟨3, 4, 0⟩ }).playerVelocity
      = ⟨3, 4, 0⟩ :=
  ⟨(((playerCollisions_velocity_projection (constantWorld (some ⟨⟨1, 0, 0⟩, 0⟩))
        { (initialSim : Sim ℚ) with playerVelocity := ⟨3, 4, 0⟩ }).1
        ⟨1, 0, 0⟩ 0 rfl).1 (le_refl 0)).2 (by norm_num [Vec3.dot]),
   ((playerCollisions_velocity_projection flatFloor
        { (initialSim : Sim ℚ) with playerVelocity := ⟨3, 4, 0⟩ }).1
        ⟨0, 1, 0⟩ 0 rfl).2 (by norm_num),
   (playerCollisions_velocity_projection (constantWorld none)
        { (initialSim : Sim ℚ) with playerVelocity := ⟨3, 4, 0⟩ }).2 rfl⟩

end Resolver

/-! ## Animation clip switch -/

section Animation

variable {α : Type} [LinearOrderedField α]

theorem startAnimation_fields (next : AnimationRef) (s : Sim α) :
    (startAnimation next s).state.mixer = s.mixer ∧
    (startAnimation next s).state.animations = s.animations ∧
    (startAnimation next s).state.currentAnimation = some next := by
  cases next <;> exact ⟨rfl, rfl, rfl⟩

theorem animationsGet_congr {β : Type} (s t : Sim β) (name : String)
    (h : t.animations = s.animations) :
    animationsGet t name = animationsGet s name := by
  simp only [animationsGet, h]

/-- A call made while the mixer is absent, or with a name whose lookup
`animations[name]` yields nothing, returns the state it was given and does not
throw. -/
theorem playAnimation_unavailable (animationName : String) (s : Sim α)
    (h : s.mixer = none ∨ animationsGet s animationName = none) :
    playAnimation animationName s = ⟨s, false⟩ := by
  rcases h with h | h
  · simp [playAnimation, h]
  · cases hm : s.mixer <;> simp [playAnimation, hm, h]

/-- A call that finds the named value already current returns the state it was
given. -/
theorem playAnimation_current (animationName : String) (s : Sim α) (v : AnimationRef)
    (hget : animationsGet s animationName = some v) (hcur : s.currentAnimation = some v) :
    (playAnimation animationName s).state = s := by
  cases hm : s.mixer <;> simp [playAnimation, hm, hget, hcur]

/-- When the clip is switched to a registered action, the new action becomes
current and is left reset, fully weighted, enabled and scheduled, and nothing is
thrown. -/
theorem playAnimation_switch (animationName : String) (s : Sim α) (t : α) (next : Nat)
    (hm : s.mixer = some t) (ha : s.animations animationName = some next)
    (hc : s.currentAnimation = none) :
    (playAnimation animationName s).threw = false ∧
    (playAnimation animationName s).state.currentAnimation
      = some (AnimationRef.action next) ∧
    ((playAnimation animationName s).state.actions next).scheduled = true ∧
    ((playAnimation animationName s).state.actions next).enabled = true ∧
    ((playAnimation animationName s).state.actions next).time = 0 ∧
    ((playAnimation animationName s).state.actions next).effectiveWeight = 1 ∧
    ((playAnimation animationName s).state.actions next).effectiveTimeScale = 1 := by
  simp [playAnimation, animationsGet, startAnimation, hm, ha, hc, AnimationAction.play,
    AnimationAction.reset, AnimationAction.setEffectiveWeight,
    AnimationAction.setEffectiveTimeScale]

/-- The state left by two calls of `playAnimation(name)` in a row is the state left
by one, for every state and every name. -/
theorem playAnimation_state_idempotent (animationName : String) (s : Sim α) :
    (playAnimation animationName (playAnimation animationName s).state).state
      = (playAnimation animationName s).state := by
  cases hm : s.mixer with
  | none => simp [playAnimation, hm]
  | some t =>
    cases hget : animationsGet s animationName with
    | none => simp [playAnimation, hm, hget]
    | some next =>
      by_cases hc : s.currentAnimation = some next
      · simp [playAnimation, hm, hget, hc]
      · have hstart : ∀ u : Sim α, u.animations = s.animations →
            (playAnimation animationName (startAnimation next u).state).state
              = (startAnimation next u).state := by
          intro u hu
          obtain ⟨-, h2, h3⟩ := startAnimation_fields next u
          apply playAnimation_current animationName _ next _ h3
          rw [animationsGet_congr s _ animationName (by rw [h2, hu]), hget]
        cases hcur : s.currentAnimation with
        | none =>
          have h1 : (playAnimation animationName s).state = (startAnimation next s).state := by
            simp [playAnimation, hm, hget, hcur]
          rw [h1]
          exact hstart s rfl
        | some cur =>
          cases cur with
          | inherited m =>
            have hne : AnimationRef.inherited m ≠ next := fun h => hc (by rw [hcur, h])
            have h1 : (playAnimation animationName s).state = s := by
              simp [playAnimation, hm, hget, hcur, hne]
            rw [h1, h1]
          | action c =>
            have hne : AnimationRef.action c ≠ next := fun h => hc (by rw [hcur, h])
            have h1 : (playAnimation animationName s).state
                = (startAnimation next
                    { s with actions :=
                        Function.update s.actions c ((s.actions c).stop.reset) }).state := by
              simp [playAnimation, hm, hget, hcur, hne]
            rw [h1]
            exact hstart _ rfl

/-- C5 (failing input). While the dance clip is playing, `playAnimation` called
with the name `constructor`, which has no entry in the clip table, does not leave
the state as it was: the lookup in the plain object finds the inherited member, the
guard at line 168 lets it through, the playing clip is stopped and reset,
`currentAnimation` is set to a value that is not an action, and the call ends
with a `TypeError`. -/
theorem playAnimation_inherited_name :
    (playAnimation "hipHopDancing" (danceLoaded : Sim ℚ)).state.animations "constructor"
      = none ∧
    (playAnimation "hipHopDancing" (danceLoaded : Sim ℚ)).state.currentAnimation
      = some (AnimationRef.action 0) ∧
    ((playAnimation "hipHopDancing" (danceLoaded : Sim ℚ)).state.actions 0).scheduled
      = true ∧
    (playAnimation "constructor"
        (playAnimation "hipHopDancing" (danceLoaded : Sim ℚ)).state).threw = true ∧
    (playAnimation "constructor"
        (playAnimation "hipHopDancing" (danceLoaded : Sim ℚ)).state).state.currentAnimation
      = some (AnimationRef.inherited "constructor") ∧
    ((playAnimation "constructor"
        (playAnimation "hipHopDancing" (danceLoaded : Sim ℚ)).state).state.actions
          0).scheduled = false ∧
    (playAnimation "constructor"
        (playAnimation "hipHopDancing" (danceLoaded : Sim ℚ)).state).state
      ≠ (playAnimation "hipHopDancing" (danceLoaded : Sim ℚ)).state := by
  have hplay : (playAnimation "hipHopDancing" (danceLoaded : Sim ℚ)).state
      = (startAnimation (AnimationRef.action 0) (danceLoaded : Sim ℚ)).state := by
    simp [playAnimation, animationsGet, danceLoaded, initialSim]
  have hget : animationsGet (startAnimation (AnimationRef.action 0)
      (danceLoaded : Sim ℚ)).state "constructor"
        = some (AnimationRef.inherited "constructor") := by
    simp [animationsGet, startAnimation, danceLoaded, initialSim, objectPrototypeNames]
  have hcall : playAnimation "constructor"
      (startAnimation (AnimationRef.action 0) (danceLoaded : Sim ℚ)).state
        = startAnimation (AnimationRef.inherited "constructor")
            { (startAnimation (AnimationRef.action 0) (danceLoaded : Sim ℚ)).state with
              actions := Function.update
                (startAnimation (AnimationRef.action 0) (danceLoaded : Sim ℚ)).state.actions 0
                (((startAnimation (AnimationRef.action 0)
                  (danceLoaded : Sim ℚ)).state.actions 0).stop.reset) } := by
    rw [playAnimation, hget]
    simp [startAnimation, danceLoaded, initialSim]
  rw [hplay, hcall]
  refine ⟨?_, ?_, ?_, ?_, ?_, ?_, ?_⟩
  · simp [startAnimation, danceLoaded, initialSim]
  · simp [startAnimation]
  · simp [startAnimation, AnimationAction.play]
  · simp [startAnimation]
  · simp [startAnimation]
  · simp [startAnimation, AnimationAction.stop, AnimationAction.reset]
  · intro h
    have hc := congrArg Sim.currentAnimation h
    simp [startAnimation] at hc

end Animation

/-! ## What each function leaves alone -/

section Frame

variable {α : Type} [LinearOrderedField α]

theorem syncPlayerModel_playerCollider (s : Sim α) :
    (syncPlayerModel s).playerCollider = s.playerCollider := by
  unfold syncPlayerModel; split <;> rfl

theorem syncPlayerModel_playerVelocity (s : Sim α) :
    (syncPlayerModel s).playerVelocity = s.playerVelocity := by
  unfold syncPlayerModel; split <;> rfl

theorem syncPlayerModel_playerOnFloor (s : Sim α) :
    (syncPlayerModel s).playerOnFloor = s.playerOnFloor := by
  unfold syncPlayerModel; split <;> rfl

theorem syncPlayerModel_camera (s : Sim α) :
    (syncPlayerModel s).camera = s.camera := by
  unfold syncPlayerModel; split <;> rfl

theorem syncPlayerModel_isVRMode (s : Sim α) :
    (syncPlayerModel s).isVRMode = s.isVRMode := by
  unfold syncPlayerModel; split <;> rfl

theorem syncPlayerModel_mixer (s : Sim α) :
    (syncPlayerModel s).mixer = s.mixer := by
  unfold syncPlayerModel; split <;> rfl

theorem updateThirdPersonCamera_playerCollider (M : JSMath α) (W : Octree α) (s : Sim α) :
    (updateThirdPersonCamera M W s).playerCollider = s.playerCollider := by
  unfold updateThirdPersonCamera; split <;> rfl

theorem updateThirdPersonCamera_playerVelocity (M : JSMath α) (W : Octree α) (s : Sim α) :
    (updateThirdPersonCamera M W s).playerVelocity = s.playerVelocity := by
  unfold updateThirdPersonCamera; split <;> rfl

theorem updateThirdPersonCamera_playerOnFloor (M : JSMath α) (W : Octree α) (s : Sim α) :
    (updateThirdPersonCamera M W s).playerOnFloor = s.playerOnFloor := by
  unfold updateThirdPersonCamera; split <;> rfl

theorem updateThirdPersonCamera_isVRMode (M : JSMath α) (W : Octree α) (s : Sim α) :
    (updateThirdPersonCamera M W s).isVRMode = s.isVRMode := by
  unfold updateThirdPersonCamera; split <;> rfl

theorem updateThirdPersonCamera_mixer (M : JSMath α) (W : Octree α) (s : Sim α) :
    (updateThirdPersonCamera M W s).mixer = s.mixer := by
  unfold updateThirdPersonCamera; split <;> rfl

theorem playerCollisions_mixer (W : Octree α) (s : Sim α) :
    (playerCollisions W s).mixer = s.mixer := by
  unfold playerCollisions; split <;> rfl

theorem playerCollisions_isVRMode (W : Octree α) (s : Sim α) :
    (playerCollisions W s).isVRMode = s.isVRMode := by
  unfold playerCollisions; split <;> rfl

theorem playerCollisions_camera (W : Octree α) (s : Sim α) :
    (playerCollisions W s).camera = s.camera := by
  unfold playerCollisions; split <;> rfl

theorem teleportPlayerIfOob_mixer (s : Sim α) :
    (teleportPlayerIfOob s).mixer = s.mixer := by
  unfold teleportPlayerIfOob; split <;> rfl

theorem teleportPlayerIfOob_isVRMode (s : Sim α) :
    (teleportPlayerIfOob s).isVRMode = s.isVRMode := by
  unfold teleportPlayerIfOob; split <;> rfl

theorem updatePlayer_mixer (M : JSMath α) (W : Octree α) (dt : α) (s : Sim α) :
    (updatePlayer M W dt s).mixer = s.mixer := by
  simp only [updatePlayer, updateThirdPersonCamera_mixer, syncPlayerModel_mixer,
    playerCollisions_mixer, updatePlayerPosition, updatePlayerVelocity]

theorem updatePlayer_isVRMode (M : JSMath α) (W : Octree α) (dt : α) (s : Sim α) :
    (updatePlayer M W dt s).isVRMode = s.isVRMode := by
  simp only [updatePlayer, updateThirdPersonCamera_isVRMode, syncPlayerModel_isVRMode,
    playerCollisions_isVRMode, updatePlayerPosition, updatePlayerVelocity]

theorem subStep_mixer (M : JSMath α) (W : Octree α) (dt : α) (s : Sim α) :
    (subStep M W dt s).mixer = s.mixer := by
  simp only [subStep, controls, teleportPlayerIfOob_mixer, updatePlayer_mixer]

theorem subStep_isVRMode (M : JSMath α) (W : Octree α) (dt : α) (s : Sim α) :
    (subStep M W dt s).isVRMode = s.isVRMode := by
  simp only [subStep, controls, teleportPlayerIfOob_isVRMode, updatePlayer_isVRMode]

theorem iterate_subStep_mixer (M : JSMath α) (W : Octree α) (dt : α) (k : Nat)
    (s : Sim α) : ((subStep M W dt)^[k] s).mixer = s.mixer := by
  induction k generalizing s with
  | zero => rfl
  | succ k ih => rw [Function.iterate_succ_apply, ih, subStep_mixer]

/-- The mixer clock after a frame: the old clock plus the clamped frame time. -/
theorem animate_mixer (M : JSMath α) (W : Octree α) (frameDeltaTime : α) (s : Sim α) :
    (animate M W frameDeltaTime s).mixer
      = s.mixer.map (fun t => t + min (5 / 100) frameDeltaTime) := by
  have h5 : subStepTime frameDeltaTime * (STEPS_PER_FRAME : α)
      = min (5 / 100) frameDeltaTime := by
    simp [subStepTime, STEPS_PER_FRAME]
  simp only [animate, syncPlayerModel_mixer, h5]
  unfold mixerUpdate
  rw [iterate_subStep_mixer]
  cases hm : s.mixer with
  | none => simp [iterate_subStep_mixer, hm]
  | some t => simp

/-- Counterexample to C8 as stated: with a clock delta of 0.1 s the mixer,
starting at 0, is advanced to 0.05, not to 0.1. -/
theorem animate_mixer_unclamped_counterexample :
    (animate (JSMath.mk Real.exp Real.sin Real.cos Real.sqrt Real.pi)
        (constantWorld none) (1 / 10)
        { (initialSim : Sim ℝ) with mixer := some 0 }).mixer = some (1 / 20) ∧
    (animate (JSMath.mk Real.exp Real.sin Real.cos Real.sqrt Real.pi)
        (constantWorld none) (1 / 10)
        { (initialSim : Sim ℝ) with mixer := some 0 }).mixer ≠ some (0 + 1 / 10) := by
  rw [animate_mixer]
  norm_num

/-- C8 (amended). One frame step advances the animation mixer by
`min(0.05, frameDeltaTime)`, the clamped clock delta, which is `frameDeltaTime`
itself when `frameDeltaTime ≤ 0.05`; an absent mixer stays absent; the physics
runs 5 sub-steps of `dt = min(0.05, frameDeltaTime) / 5`. -/
theorem animate_clock (M : JSMath α) (W : Octree α) (frameDeltaTime : α) (s : Sim α) :
    (animate M W frameDeltaTime s).mixer
      = s.mixer.map (fun t => t + min (5 / 100) frameDeltaTime) ∧
    (frameDeltaTime ≤ 5 / 100 →
      (animate M W frameDeltaTime s).mixer = s.mixer.map (fun t => t + frameDeltaTime)) ∧
    animate M W frameDeltaTime s
      = syncPlayerModel (mixerUpdate (min (5 / 100) frameDeltaTime)
          ((subStep M W (min (5 / 100) frameDeltaTime / 5))^[5] s)) := by
  refine ⟨animate_mixer M W frameDeltaTime s, ?_, ?_⟩
  · intro h
    rw [animate_mixer, min_eq_right h]
  · have h5 : subStepTime frameDeltaTime * (STEPS_PER_FRAME : α)
        = min (5 / 100) frameDeltaTime := by
      simp [subStepTime, STEPS_PER_FRAME]
    simp only [animate, h5]
    simp [subStepTime, STEPS_PER_FRAME]

/-- Witness for C8 (amended): a clock delta of 1/60 s is below the clamp and
reaches the mixer unchanged. -/
theorem animate_clock_witness :
    (animate (JSMath.mk Real.exp Real.sin Real.cos Real.sqrt Real.pi)
        (constantWorld none) (1 / 60)
        { (initialSim : Sim ℝ) with mixer := some 0 }).mixer
      = (some (0 : ℝ)).map (fun t => t + 1 / 60) :=
  (animate_clock (JSMath.mk Real.exp Real.sin Real.cos Real.sqrt Real.pi)
      (constantWorld none) (1 / 60)
      { (initialSim : Sim ℝ) with mixer := some 0 }).2.1 (by norm_num)

end Frame

/-! ## Capsule rigidity -/

section Rigidity

variable {α : Type} [LinearOrderedField α]

theorem rigid_translate (c : Capsule α) (v : Vec3 α) (h : Rigid c) :
    Rigid (c.translate v) := by
  obtain ⟨hr, hd⟩ := h
  refine ⟨hr, ?_⟩
  simp only [Capsule.translate, Vec3.sub, Vec3.add, Vec3.mk.injEq] at hd ⊢
  obtain ⟨h1, h2, h3⟩ := hd
  exact ⟨by rw [← h1]; ring, by rw [← h2]; ring, by rw [← h3]; ring⟩

theorem rigid_defaultCollider : Rigid (defaultCollider : Capsule α) := by
  simp [Rigid, defaultCollider, Vec3.sub]

theorem rigid_playerCollisions (W : Octree α) (s : Sim α) (h : Rigid s.playerCollider) :
    Rigid (playerCollisions W s).playerCollider := by
  unfold playerCollisions
  split
  · exact h
  · exact rigid_translate _ _ h

theorem rigid_teleportPlayerIfOob (s : Sim α) (h : Rigid s.playerCollider) :
    Rigid (teleportPlayerIfOob s).playerCollider := by
  unfold teleportPlayerIfOob
  split
  · exact rigid_defaultCollider
  · exact h

theorem rigid_updatePlayer (M : JSMath α) (W : Octree α) (dt : α) (s : Sim α)
    (h : Rigid s.playerCollider) : Rigid (updatePlayer M W dt s).playerCollider := by
  simp only [updatePlayer, updateThirdPersonCamera_playerCollider,
    syncPlayerModel_playerCollider]
  apply rigid_playerCollisions
  exact rigid_translate _ _ h

/-- C10. In every state reachable from the initial state by `updatePlayer`,
`playerCollisions` and `teleportPlayerIfOob` calls, with any sub-step times and
any world answers, the capsule radius is `0.07` and `end - start = (0, 0.3, 0)`. -/
theorem capsule_rigid (M : JSMath α) (s : Sim α) (h : Reachable M s) :
    s.playerCollider.radius = 7 / 100 ∧
    s.playerCollider.end_.sub s.playerCollider.start = ⟨0, 3 / 10, 0⟩ := by
  have key : Rigid s.playerCollider := by
    induction h with
    | init => exact rigid_defaultCollider
    | updatePlayer W dt _ ih => exact rigid_updatePlayer M W dt _ ih
    | playerCollisions W _ ih => exact rigid_playerCollisions W _ ih
    | teleportPlayerIfOob _ ih => exact rigid_teleportPlayerIfOob _ ih
  exact key

/-- Witness for C10: the state after one `updatePlayer`, one extra
`playerCollisions` against a wall, and one `teleportPlayerIfOob`. -/
theorem capsule_rigid_witness :
    (teleportPlayerIfOob
      (playerCollisions (constantWorld (some ⟨⟨1, 0, 0⟩, 1 / 4⟩))
        (updatePlayer (JSMath.mk Real.exp Real.sin Real.cos Real.sqrt Real.pi)
          (constantWorld none) (1 / 300) (initialSim : Sim ℝ)))).playerCollider.radius
      = 7 / 100 ∧
    Vec3.sub
      (teleportPlayerIfOob
        (playerCollisions (constantWorld (some ⟨⟨1, 0, 0⟩, 1 / 4⟩))
          (updatePlayer (JSMath.mk Real.exp Real.sin Real.cos Real.sqrt Real.pi)
            (constantWorld none) (1 / 300) (initialSim : Sim ℝ)))).playerCollider.end_
      (teleportPlayerIfOob
        (playerCollisions (constantWorld (some ⟨⟨1, 0, 0⟩, 1 / 4⟩))
          (updatePlayer (JSMath.mk Real.exp Real.sin Real.cos Real.sqrt Real.pi)
            (constantWorld none) (1 / 300) (initialSim : Sim ℝ)))).playerCollider.start
      = ⟨0, 3 / 10, 0⟩ :=
  capsule_rigid (JSMath.mk Real.exp Real.sin Real.cos Real.sqrt Real.pi) _
    (Reachable.teleportPlayerIfOob
      (Reachable.playerCollisions (constantWorld (some ⟨⟨1, 0, 0⟩, 1 / 4⟩))
        (Reachable.updatePlayer (constantWorld none) (1 / 300) Reachable.init)))

end Rigidity

/-! ## Damping -/

section Damping

theorem lengthSq_multiplyScalar {α : Type} [LinearOrderedField α] (v : Vec3 α) (c : α) :
    (v.multiplyScalar c).lengthSq = c ^ 2 * v.lengthSq := by
  simp only [Vec3.lengthSq, Vec3.multiplyScalar]
  ring

theorem lengthSq_nonneg {α : Type} [LinearOrderedField α] (v : Vec3 α) :
    0 ≤ v.lengthSq := by
  simp only [Vec3.lengthSq]
  nlinarith [mul_self_nonneg v.x, mul_self_nonneg v.y, mul_self_nonneg v.z]

/-- C4. On the floor, the velocity update of `updatePlayer` with sub-step time
`dt ≥ 0` multiplies the velocity by `exp(-4 * dt)` (no gravity term is added), and
the length of the velocity does not grow. -/
theorem damping_attenuates (sin cos : ℝ → ℝ) (pi dt : ℝ) (s : Sim ℝ) (hdt : 0 ≤ dt)
    (hfloor : s.playerOnFloor = true) :
    (updatePlayerVelocity (JSMath.mk Real.exp sin cos Real.sqrt pi) dt s).playerVelocity
      = s.playerVelocity.multiplyScalar (Real.exp (-4 * dt)) ∧
    Vec3.length (JSMath.mk Real.exp sin cos Real.sqrt pi)
        (updatePlayerVelocity (JSMath.mk Real.exp sin cos Real.sqrt pi) dt s).playerVelocity
      ≤ Vec3.length (JSMath.mk Real.exp sin cos Real.sqrt pi) s.playerVelocity := by
  have hv : (updatePlayerVelocity (JSMath.mk Real.exp sin cos Real.sqrt pi) dt
      s).playerVelocity = s.playerVelocity.multiplyScalar (Real.exp (-4 * dt)) := by
    simp only [updatePlayerVelocity, hfloor, Bool.not_true, Bool.false_eq_true, if_false,
      Vec3.addScaledVector, Vec3.multiplyScalar, Vec3.mk.injEq]
    exact ⟨by ring, by ring, by ring⟩
  refine ⟨hv, ?_⟩
  rw [hv]
  simp only [Vec3.length, lengthSq_multiplyScalar]
  apply Real.sqrt_le_sqrt
  have he0 : 0 < Real.exp (-4 * dt) := Real.exp_pos _
  have he1 : Real.exp (-4 * dt) ≤ 1 := by
    rw [Real.exp_le_one_iff]
    linarith
  have hsq : Real.exp (-4 * dt) ^ 2 ≤ 1 := by nlinarith
  have hl := lengthSq_nonneg s.playerVelocity
  nlinarith

/-- Witness for C4: velocity `(3, 4, 0)` on the floor, sub-step time 1/300. -/
theorem damping_attenuates_witness :
    (updatePlayerVelocity (JSMath.mk Real.exp Real.sin Real.cos Real.sqrt Real.pi) (1 / 300)
        { (initialSim : Sim ℝ) with
          playerVelocity := ⟨3, 4, 0⟩, playerOnFloor := true }).playerVelocity
      = (⟨3, 4, 0⟩ : Vec3 ℝ).multiplyScalar (Real.exp (-4 * (1 / 300))) ∧
    Vec3.length (JSMath.mk Real.exp Real.sin Real.cos Real.sqrt Real.pi)
        (updatePlayerVelocity (JSMath.mk Real.exp Real.sin Real.cos Real.sqrt Real.pi)
          (1 / 300)
          { (initialSim : Sim ℝ) with
            playerVelocity := ⟨3, 4, 0⟩, playerOnFloor := true }).playerVelocity
      ≤ Vec3.length (JSMath.mk Real.exp Real.sin Real.cos Real.sqrt Real.pi)
          (⟨3, 4, 0⟩ : Vec3 ℝ) :=
  damping_attenuates Real.sin Real.cos Real.pi (1 / 300)
    { (initialSim : Sim ℝ) with playerVelocity := ⟨3, 4, 0⟩, playerOnFloor := true }
    (by norm_num) rfl

end Damping

/-! ## Stereo camera pair -/

section Stereo

/-- The right vector computed at line 455 is the zero vector for every capsule
position and every probe outcome: the receiver of `cross` is the zero vector, and
normalising the zero vector only rescales it. -/
theorem rightDirection_eq_zero {α : Type} [LinearOrderedField α] (M : JSMath α)
    (W : Octree α) (p : Vec3 α) : (cameraRig M W p).rightDirection = ⟨0, 0, 0⟩ := by
  simp [cameraRig, Vec3.normalize, Vec3.divideScalar, Vec3.multiplyScalar, Vec3.cross,
    Vec3.crossVectors, Vec3.zero]

/-- In VR mode both eye cameras are placed on `finalCameraPosition`, with no
offset between them, and are aimed at `lookAtPosition`. -/
theorem eyes_coincide_vr {α : Type} [LinearOrderedField α] (M : JSMath α) (W : Octree α)
    (s : Sim α) (hvr : s.isVRMode = true) :
    (updateThirdPersonCamera M W s).cameraLeft.position
      = (cameraRig M W s.playerCollider.end_).finalCameraPosition ∧
    (updateThirdPersonCamera M W s).cameraRight.position
      = (cameraRig M W s.playerCollider.end_).finalCameraPosition ∧
    (updateThirdPersonCamera M W s).cameraLeft.lookAt
      = some (cameraRig M W s.playerCollider.end_).lookAtPosition ∧
    (updateThirdPersonCamera M W s).cameraRight.lookAt
      = some (cameraRig M W s.playerCollider.end_).lookAtPosition := by
  have h0 := rightDirection_eq_zero M W s.playerCollider.end_
  refine ⟨?_, ?_, ?_, ?_⟩ <;>
    simp [updateThirdPersonCamera, hvr, h0, Vec3.sub, Vec3.add, Vec3.multiplyScalar]

/-- Normalising multiplies by a non-zero scalar. -/
theorem normalize_scale (exp sin cos : ℝ → ℝ) (pi : ℝ) (v : Vec3 ℝ) :
    ∃ c : ℝ, c ≠ 0 ∧
      Vec3.normalize (JSMath.mk exp sin cos Real.sqrt pi) v = v.multiplyScalar c := by
  by_cases h : Vec3.length (JSMath.mk exp sin cos Real.sqrt pi) v = 0
  · exact ⟨1 / 1, by norm_num, by simp [Vec3.normalize, Vec3.divideScalar, h]⟩
  · exact ⟨1 / Vec3.length (JSMath.mk exp sin cos Real.sqrt pi) v,
      one_div_ne_zero h, by simp [Vec3.normalize, Vec3.divideScalar, h]⟩

/-- The product of the line of sight with the world up vector, which is the right
vector of the camera pose, is not the zero vector as soon as the line of sight has
a non-zero `z` component. -/
theorem cross_look_up_ne_zero (exp sin cos : ℝ → ℝ) (pi : ℝ) (W : Octree ℝ) (p : Vec3 ℝ)
    (hz : ((cameraRig (JSMath.mk exp sin cos Real.sqrt pi) W p).lookAtPosition.sub
      (cameraRig (JSMath.mk exp sin cos Real.sqrt pi) W p).finalCameraPosition).z ≠ 0) :
    Vec3.crossVectors (cameraRig (JSMath.mk exp sin cos Real.sqrt pi) W p).lookDirection
      ⟨0, 1, 0⟩ ≠ ⟨0, 0, 0⟩ := by
  obtain ⟨c1, hc1, h1⟩ := normalize_scale exp sin cos pi
    ((cameraRig (JSMath.mk exp sin cos Real.sqrt pi) W p).lookAtPosition.sub
      (cameraRig (JSMath.mk exp sin cos Real.sqrt pi) W p).finalCameraPosition)
  have hl : (cameraRig (JSMath.mk exp sin cos Real.sqrt pi) W p).lookDirection
      = ((cameraRig (JSMath.mk exp sin cos Real.sqrt pi) W p).lookAtPosition.sub
          (cameraRig (JSMath.mk exp sin cos Real.sqrt pi) W p).finalCameraPosition).multiplyScalar
            c1 := h1
  intro h0
  have hx := congrArg Vec3.x h0
  rw [hl] at hx
  simp only [Vec3.crossVectors, Vec3.multiplyScalar, mul_zero, mul_one, zero_sub,
    neg_eq_zero, mul_eq_zero] at hx
  rcases hx with h | h
  · exact hz h
  · exact hc1 h

theorem cos_one_fifth_pos : 0 < Real.cos (2 / 10) :=
  Real.cos_pos_of_mem_Ioo ⟨by linarith [Real.pi_pos], by linarith [Real.pi_gt_three]⟩

/-- C2 (failing input). In VR mode, with the capsule at its default pose and no
hit reported by the camera probe, the camera pose has a non-degenerate right
vector (the product of the line of sight with the up vector is not zero), yet the
`rightDirection` computed at line 455 is the zero vector, so `cameraLeft` and
`cameraRight` are both placed on `finalCameraPosition`: each at distance 0 from
it, not `eyeDistance / 2`, and not on opposite sides.  Both are aimed at the same
`lookAtPosition`. -/
theorem stereo_eyes_coincide :
    Vec3.crossVectors
        (cameraRig (JSMath.mk Real.exp Real.sin Real.cos Real.sqrt Real.pi)
          (constantWorld none) (vrStart : Sim ℝ).playerCollider.end_).lookDirection
        ⟨0, 1, 0⟩ ≠ ⟨0, 0, 0⟩ ∧
    (cameraRig (JSMath.mk Real.exp Real.sin Real.cos Real.sqrt Real.pi) (constantWorld none)
        (vrStart : Sim ℝ).playerCollider.end_).rightDirection = ⟨0, 0, 0⟩ ∧
    (updateThirdPersonCamera (JSMath.mk Real.exp Real.sin Real.cos Real.sqrt Real.pi)
        (constantWorld none) (vrStart : Sim ℝ)).cameraLeft.position
      = (updateThirdPersonCamera (JSMath.mk Real.exp Real.sin Real.cos Real.sqrt Real.pi)
          (constantWorld none) (vrStart : Sim ℝ)).cameraRight.position ∧
    Vec3.distanceTo (JSMath.mk Real.exp Real.sin Real.cos Real.sqrt Real.pi)
        (updateThirdPersonCamera (JSMath.mk Real.exp Real.sin Real.cos Real.sqrt Real.pi)
          (constantWorld none) (vrStart : Sim ℝ)).cameraLeft.position
        (cameraRig (JSMath.mk Real.exp Real.sin Real.cos Real.sqrt Real.pi)
          (constantWorld none) (vrStart : Sim ℝ).playerCollider.end_).finalCameraPosition
      = 0 ∧
    Vec3.distanceTo (JSMath.mk Real.exp Real.sin Real.cos Real.sqrt Real.pi)
        (updateThirdPersonCamera (JSMath.mk Real.exp Real.sin Real.cos Real.sqrt Real.pi)
          (constantWorld none) (vrStart : Sim ℝ)).cameraRight.position
        (cameraRig (JSMath.mk Real.exp Real.sin Real.cos Real.sqrt Real.pi)
          (constantWorld none) (vrStart : Sim ℝ).playerCollider.end_).finalCameraPosition
      = 0 ∧
    (0 : ℝ) ≠ eyeDistance / 2 ∧
    (updateThirdPersonCamera (JSMath.mk Real.exp Real.sin Real.cos Real.sqrt Real.pi)
        (constantWorld none) (vrStart : Sim ℝ)).cameraLeft.lookAt
      = (updateThirdPersonCamera (JSMath.mk Real.exp Real.sin Real.cos Real.sqrt Real.pi)
          (constantWorld none) (vrStart : Sim ℝ)).cameraRight.lookAt := by
  have hpose : Vec3.crossVectors
      (cameraRig (JSMath.mk Real.exp Real.sin Real.cos Real.sqrt Real.pi)
        (constantWorld none) (vrStart : Sim ℝ).playerCollider.end_).lookDirection
      ⟨0, 1, 0⟩ ≠ ⟨0, 0, 0⟩ := by
    apply cross_look_up_ne_zero
    have hc := cos_one_fifth_pos
    simp only [cameraRig, constantWorld, Vec3.sub, cameraAngleY, cameraAngleX, cameraDistance,
      Real.cos_pi]
    intro h
    linarith
  obtain ⟨hl, hr, hla, hra⟩ := eyes_coincide_vr
    (JSMath.mk Real.exp Real.sin Real.cos Real.sqrt Real.pi) (constantWorld none)
    (vrStart : Sim ℝ) rfl
  have hd : ∀ v : Vec3 ℝ, Vec3.distanceTo
      (JSMath.mk Real.exp Real.sin Real.cos Real.sqrt Real.pi) v v = 0 := by
    intro v
    simp [Vec3.distanceTo, Vec3.sub, Vec3.lengthSq]
  refine ⟨hpose, rightDirection_eq_zero _ _ _, by rw [hl, hr], ?_, ?_, ?_, by rw [hla, hra]⟩
  · rw [hl]; exact hd _
  · rw [hr]; exact hd _
  · norm_num [eyeDistance]

end Stereo

/-! ## Sub-steps on a flat floor -/

section Floor

variable {α : Type} [LinearOrderedField α]

theorem iterate_five {β : Type} (f : β → β) (x : β) :
    f^[5] x = f (f (f (f (f x)))) := rfl

theorem translate_zero (c : Capsule α) (n : Vec3 α) :
    c.translate (n.multiplyScalar 0) = c := by
  cases c
  simp [Capsule.translate, Vec3.multiplyScalar, Vec3.add]

theorem updatePlayer_camera_mono (M : JSMath α) (W : Octree α) (dt : α) (s : Sim α)
    (hm : s.isVRMode = false) :
    (updatePlayer M W dt s).camera.position
      = s.camera.position.lerp
          (cameraRig M W (updatePlayer M W dt s).playerCollider.end_).finalCameraPosition
          (1 / 10) := by
  have h1 : (syncPlayerModel (playerCollisions W
      (updatePlayerPosition dt (updatePlayerVelocity M dt s)))).isVRMode = false := by
    rw [syncPlayerModel_isVRMode, playerCollisions_isVRMode]
    exact hm
  have h2 : (syncPlayerModel (playerCollisions W
      (updatePlayerPosition dt (updatePlayerVelocity M dt s)))).camera = s.camera := by
    rw [syncPlayerModel_camera, playerCollisions_camera]
    rfl
  rw [updatePlayer, updateThirdPersonCamera_playerCollider]
  simp only [updateThirdPersonCamera, h1, h2, Bool.false_eq_true, if_false]

theorem updatePlayer_camera_vr (M : JSMath α) (W : Octree α) (dt : α) (s : Sim α)
    (hm : s.isVRMode = true) :
    (updatePlayer M W dt s).camera = s.camera := by
  have h1 : (syncPlayerModel (playerCollisions W
      (updatePlayerPosition dt (updatePlayerVelocity M dt s)))).isVRMode = true := by
    rw [syncPlayerModel_isVRMode, playerCollisions_isVRMode]
    exact hm
  have h2 : (syncPlayerModel (playerCollisions W
      (updatePlayerPosition dt (updatePlayerVelocity M dt s)))).camera = s.camera := by
    rw [syncPlayerModel_camera, playerCollisions_camera]
    rfl
  rw [updatePlayer]
  simp only [updateThirdPersonCamera, h1, h2, if_true]

/-- Physics of one `updatePlayer` on a world whose capsule query always reports
the floor contact `(0, 1, 0)` with depth 0. -/
theorem updatePlayer_on_floor (M : JSMath α) (W : Octree α) (dt : α) (s : Sim α)
    (hW : ∀ c, W.capsuleIntersect c = some ⟨⟨0, 1, 0⟩, 0⟩) :
    (updatePlayer M W dt s).playerOnFloor = true ∧
    (updatePlayer M W dt s).playerVelocity = (updatePlayerVelocity M dt s).playerVelocity ∧
    (updatePlayer M W dt s).playerCollider
      = s.playerCollider.translate
          ((updatePlayerVelocity M dt s).playerVelocity.multiplyScalar dt) := by
  simp only [updatePlayer, updateThirdPersonCamera_playerOnFloor,
    updateThirdPersonCamera_playerVelocity, updateThirdPersonCamera_playerCollider,
    syncPlayerModel_playerOnFloor, syncPlayerModel_playerVelocity,
    syncPlayerModel_playerCollider]
  simp only [playerCollisions, hW, translate_zero]
  simp [updatePlayerPosition, updatePlayerVelocity]

theorem updatePlayerVelocity_rest (M : JSMath α) (dt : α) (s : Sim α)
    (hv : s.playerVelocity = ⟨0, 0, 0⟩) (hf : s.playerOnFloor = true) :
    (updatePlayerVelocity M dt s).playerVelocity = ⟨0, 0, 0⟩ := by
  simp [updatePlayerVelocity, hv, hf, Vec3.addScaledVector]

/-- A body at rest on the floor stays where it is during `updatePlayer`; the mono
camera takes one lerp step towards the camera position computed for the capsule. -/
theorem updatePlayer_rest (M : JSMath α) (W : Octree α) (dt : α) (s : Sim α)
    (c : Capsule α) (cam : Vec3 α)
    (hW : ∀ c, W.capsuleIntersect c = some ⟨⟨0, 1, 0⟩, 0⟩) (h : RestAt c cam s) :
    RestAt c (cam.lerp (cameraRig M W c.end_).finalCameraPosition (1 / 10))
      (updatePlayer M W dt s) := by
  obtain ⟨hv, hf, hc, hm, hcam⟩ := h
  obtain ⟨h1, h2, h3⟩ := updatePlayer_on_floor M W dt s hW
  have hv0 := updatePlayerVelocity_rest M dt s hv hf
  have hcol : (updatePlayer M W dt s).playerCollider = c := by
    rw [h3, hv0, hc]
    cases c
    simp [Capsule.translate, Vec3.multiplyScalar, Vec3.add]
  refine ⟨by rw [h2, hv0], h1, hcol, ?_, ?_⟩
  · rw [updatePlayer_isVRMode, hm]
  · rw [updatePlayer_camera_mono M W dt s hm, hcol, hcam]

/-- If the camera is above -25 after `updatePlayer`, the sub-step is just
`updatePlayer`. -/
theorem subStep_eq_updatePlayer (M : JSMath α) (W : Octree α) (dt : α) (s : Sim α)
    (h : ¬ (updatePlayer M W dt s).camera.position.y ≤ -25) :
    subStep M W dt s = updatePlayer M W dt s := by
  simp only [subStep, controls, teleportPlayerIfOob, h, if_false]

/-- If the camera is at or below -25 after `updatePlayer`, the sub-step ends with
the capsule at its default pose and zero velocity. -/
theorem subStep_teleports (M : JSMath α) (W : Octree α) (dt : α) (s : Sim α)
    (h : (updatePlayer M W dt s).camera.position.y ≤ -25) :
    (subStep M W dt s).playerVelocity = ⟨0, 0, 0⟩ ∧
    (subStep M W dt s).playerCollider = defaultCollider := by
  simp [subStep, controls, teleportPlayerIfOob, h, defaultCollider]

theorem subStep_rest (M : JSMath α) (W : Octree α) (dt : α) (s : Sim α)
    (c : Capsule α) (cam : Vec3 α)
    (hW : ∀ c, W.capsuleIntersect c = some ⟨⟨0, 1, 0⟩, 0⟩) (h : RestAt c cam s)
    (hno : ¬ (cam.lerp (cameraRig M W c.end_).finalCameraPosition (1 / 10)).y ≤ -25) :
    RestAt c (cam.lerp (cameraRig M W c.end_).finalCameraPosition (1 / 10))
      (subStep M W dt s) := by
  have hr := updatePlayer_rest M W dt s c cam hW h
  have hno2 : ¬ (updatePlayer M W dt s).camera.position.y ≤ -25 := by
    rw [hr.2.2.2.2]
    exact hno
  rw [subStep_eq_updatePlayer M W dt s hno2]
  exact hr

theorem mixerUpdate_fields (delta : α) (s : Sim α) :
    (mixerUpdate delta s).playerVelocity = s.playerVelocity ∧
    (mixerUpdate delta s).playerCollider = s.playerCollider ∧
    (mixerUpdate delta s).playerOnFloor = s.playerOnFloor ∧
    (mixerUpdate delta s).camera = s.camera ∧
    (mixerUpdate delta s).isVRMode = s.isVRMode := by
  unfold mixerUpdate
  split <;> exact ⟨rfl, rfl, rfl, rfl, rfl⟩

/-- The physical state and the cameras at the end of a frame are those left by
the five sub-steps. -/
theorem animate_fields (M : JSMath α) (W : Octree α) (frameDeltaTime : α) (s : Sim α) :
    (animate M W frameDeltaTime s).playerVelocity
      = ((subStep M W (subStepTime frameDeltaTime))^[5] s).playerVelocity ∧
    (animate M W frameDeltaTime s).playerCollider
      = ((subStep M W (subStepTime frameDeltaTime))^[5] s).playerCollider ∧
    (animate M W frameDeltaTime s).playerOnFloor
      = ((subStep M W (subStepTime frameDeltaTime))^[5] s).playerOnFloor ∧
    (animate M W frameDeltaTime s).camera
      = ((subStep M W (subStepTime frameDeltaTime))^[5] s).camera ∧
    (animate M W frameDeltaTime s).isVRMode
      = ((subStep M W (subStepTime frameDeltaTime))^[5] s).isVRMode := by
  obtain ⟨h1, h2, h3, h4, h5⟩ := mixerUpdate_fields
    (subStepTime frameDeltaTime * (STEPS_PER_FRAME : α))
    ((subStep M W (subStepTime frameDeltaTime))^[STEPS_PER_FRAME] s)
  simp only [animate, syncPlayerModel_playerVelocity, syncPlayerModel_playerCollider,
    syncPlayerModel_playerOnFloor, syncPlayerModel_camera, syncPlayerModel_isVRMode,
    h1, h2, h3, h4, h5]
  exact ⟨rfl, rfl, rfl, rfl, rfl⟩

theorem subStep_rest_default (M : JSMath α) (W : Octree α) (dt : α) (s : Sim α)
    (hW : ∀ c, W.capsuleIntersect c = some ⟨⟨0, 1, 0⟩, 0⟩)
    (h : s.playerVelocity = ⟨0, 0, 0⟩ ∧ s.playerOnFloor = true ∧
      s.playerCollider = defaultCollider) :
    (subStep M W dt s).playerVelocity = ⟨0, 0, 0⟩ ∧ (subStep M W dt s).playerOnFloor = true ∧
      (subStep M W dt s).playerCollider = defaultCollider := by
  obtain ⟨hv, hf, hc⟩ := h
  obtain ⟨h1, h2, h3⟩ := updatePlayer_on_floor M W dt s hW
  have hv0 := updatePlayerVelocity_rest M dt s hv hf
  have hcol : (updatePlayer M W dt s).playerCollider = defaultCollider := by
    rw [h3, hv0, hc]
    simp [Capsule.translate, Vec3.multiplyScalar, Vec3.add, defaultCollider]
  have hvel : (updatePlayer M W dt s).playerVelocity = ⟨0, 0, 0⟩ := by rw [h2, hv0]
  simp only [subStep, controls, teleportPlayerIfOob]
  split
  · exact ⟨rfl, h1, rfl⟩
  · exact ⟨hvel, h1, hcol⟩

theorem animate_rest_default (M : JSMath α) (W : Octree α) (frameDeltaTime : α) (s : Sim α)
    (hW : ∀ c, W.capsuleIntersect c = some ⟨⟨0, 1, 0⟩, 0⟩)
    (h : s.playerVelocity = ⟨0, 0, 0⟩ ∧ s.playerOnFloor = true ∧
      s.playerCollider = defaultCollider) :
    (animate M W frameDeltaTime s).playerVelocity = ⟨0, 0, 0⟩ ∧
      (animate M W frameDeltaTime s).playerOnFloor = true ∧
      (animate M W frameDeltaTime s).playerCollider = defaultCollider := by
  obtain ⟨h1, h2, h3, -, -⟩ := animate_fields M W frameDeltaTime s
  rw [h1, h2, h3, iterate_five]
  exact ⟨(subStep_rest_default M W _ _ hW (subStep_rest_default M W _ _ hW
      (subStep_rest_default M W _ _ hW (subStep_rest_default M W _ _ hW
        (subStep_rest_default M W _ _ hW h))))).1,
    (subStep_rest_default M W _ _ hW (subStep_rest_default M W _ _ hW
      (subStep_rest_default M W _ _ hW (subStep_rest_default M W _ _ hW
        (subStep_rest_default M W _ _ hW h))))).2.1,
    (subStep_rest_default M W _ _ hW (subStep_rest_default M W _ _ hW
      (subStep_rest_default M W _ _ hW (subStep_rest_default M W _ _ hW
        (subStep_rest_default M W _ _ hW h))))).2.2⟩

theorem iterate_animate_rest_default (M : JSMath α) (W : Octree α) (frameDeltaTime : α)
    (hW : ∀ c, W.capsuleIntersect c = some ⟨⟨0, 1, 0⟩, 0⟩) (k : Nat) (s : Sim α)
    (h : s.playerVelocity = ⟨0, 0, 0⟩ ∧ s.playerOnFloor = true ∧
      s.playerCollider = defaultCollider) :
    ((animate M W frameDeltaTime)^[k] s).playerVelocity = ⟨0, 0, 0⟩ ∧
      ((animate M W frameDeltaTime)^[k] s).playerOnFloor = true ∧
      ((animate M W frameDeltaTime)^[k] s).playerCollider = defaultCollider := by
  induction k generalizing s with
  | zero => exact h
  | succ k ih =>
    rw [Function.iterate_succ_apply]
    exact ih _ (animate_rest_default M W frameDeltaTime s hW h)

/-- C6 (amended). Starting from zero velocity with the capsule at its default
pose and the floor-contact flag set, in a world where every capsule query reports
the normal `(0, 1, 0)` with depth 0, after any number `k` of consecutive frame
steps with frame time 1/60 (in particular after each of the first 100) the vertical
velocity is 0 (the whole velocity is) and the capsule is where it started, its
end-point at height 0.3. -/
theorem grounded_rest (M : JSMath α) (W : Octree α) (s : Sim α) (k : Nat)
    (hW : ∀ c, W.capsuleIntersect c = some ⟨⟨0, 1, 0⟩, 0⟩)
    (hv : s.playerVelocity = ⟨0, 0, 0⟩) (hc : s.playerCollider = defaultCollider)
    (hf : s.playerOnFloor = true) :
    ((animate M W (1 / 60))^[k] s).playerVelocity.y = 0 ∧
    ((animate M W (1 / 60))^[k] s).playerVelocity = ⟨0, 0, 0⟩ ∧
    ((animate M W (1 / 60))^[k] s).playerCollider.end_.y = s.playerCollider.end_.y ∧
    ((animate M W (1 / 60))^[k] s).playerCollider = s.playerCollider := by
  obtain ⟨h1, -, h3⟩ := iterate_animate_rest_default M W (1 / 60) hW k s ⟨hv, hf, hc⟩
  rw [h1, h3, hc]
  exact ⟨rfl, rfl, rfl, rfl⟩

/-- Witness for C6 (amended): the grounded initial state on the flat floor, after
100 frames. -/
theorem grounded_rest_witness :
    ((animate (JSMath.mk Real.exp Real.sin Real.cos Real.sqrt Real.pi) flatFloor
        (1 / 60))^[100] (groundedStart : Sim ℝ)).playerVelocity.y = 0 ∧
    ((animate (JSMath.mk Real.exp Real.sin Real.cos Real.sqrt Real.pi) flatFloor
        (1 / 60))^[100] (groundedStart : Sim ℝ)).playerVelocity = ⟨0, 0, 0⟩ ∧
    ((animate (JSMath.mk Real.exp Real.sin Real.cos Real.sqrt Real.pi) flatFloor
        (1 / 60))^[100] (groundedStart : Sim ℝ)).playerCollider.end_.y
      = (groundedStart : Sim ℝ).playerCollider.end_.y ∧
    ((animate (JSMath.mk Real.exp Real.sin Real.cos Real.sqrt Real.pi) flatFloor
        (1 / 60))^[100] (groundedStart : Sim ℝ)).playerCollider
      = (groundedStart : Sim ℝ).playerCollider :=
  grounded_rest (JSMath.mk Real.exp Real.sin Real.cos Real.sqrt Real.pi) flatFloor
    (groundedStart : Sim ℝ) 100 (fun _ => rfl) rfl rfl rfl

end Floor

/-! ## Landing on the flat floor from the initial state -/

section Landing

theorem exp_subStep_bounds :
    74 / 75 ≤ Real.exp (-4 * (1 / 300)) ∧ Real.exp (-4 * (1 / 300)) ≤ 1 := by
  constructor
  · have h := Real.add_one_le_exp (-4 * (1 / 300))
    linarith
  · rw [Real.exp_le_one_iff]
    norm_num

theorem finalCameraPosition_flatFloor_y (M : JSMath ℝ) (p : Vec3 ℝ) :
    (cameraRig M flatFloor p).finalCameraPosition.y
      = p.y + 15 / 100 + M.sin (2 / 10) * (4 / 10) := by
  simp [cameraRig, flatFloor, constantWorld, cameraHeight, cameraAngleX, cameraDistance]

/-- One sub-step on the flat floor in mono mode, given bounds on the damped
vertical velocity: the body keeps sinking and the recovery does not fire. -/
theorem landing_core (s : Sim ℝ) (b el eu : ℝ)
    (hm : s.isVRMode = false)
    (hv1 : -1 / 10 ≤ (updatePlayerVelocity
      (JSMath.mk Real.exp Real.sin Real.cos Real.sqrt Real.pi) (1 / 300) s).playerVelocity.y)
    (hv2 : (updatePlayerVelocity
      (JSMath.mk Real.exp Real.sin Real.cos Real.sqrt Real.pi) (1 / 300) s).playerVelocity.y
        ≤ -b)
    (he1 : el ≤ s.playerCollider.end_.y) (he2 : s.playerCollider.end_.y ≤ eu)
    (hel : -20 ≤ el) (hc : -25 < s.camera.position.y) :
    (subStep (JSMath.mk Real.exp Real.sin Real.cos Real.sqrt Real.pi) flatFloor (1 / 300)
        s).isVRMode = false ∧
    (subStep (JSMath.mk Real.exp Real.sin Real.cos Real.sqrt Real.pi) flatFloor (1 / 300)
        s).playerOnFloor = true ∧
    -1 / 10 ≤ (subStep (JSMath.mk Real.exp Real.sin Real.cos Real.sqrt Real.pi) flatFloor
        (1 / 300) s).playerVelocity.y ∧
    (subStep (JSMath.mk Real.exp Real.sin Real.cos Real.sqrt Real.pi) flatFloor (1 / 300)
        s).playerVelocity.y ≤ -b ∧
    el - 1 / 3000 ≤ (subStep (JSMath.mk Real.exp Real.sin Real.cos Real.sqrt Real.pi)
        flatFloor (1 / 300) s).playerCollider.end_.y ∧
    (subStep (JSMath.mk Real.exp Real.sin Real.cos Real.sqrt Real.pi) flatFloor (1 / 300)
        s).playerCollider.end_.y ≤ eu - b / 300 ∧
    -25 < (subStep (JSMath.mk Real.exp Real.sin Real.cos Real.sqrt Real.pi) flatFloor
        (1 / 300) s).camera.position.y := by
  obtain ⟨h1, h2, h3⟩ := updatePlayer_on_floor
    (JSMath.mk Real.exp Real.sin Real.cos Real.sqrt Real.pi) flatFloor (1 / 300) s
    (fun _ => rfl)
  have hend : (updatePlayer (JSMath.mk Real.exp Real.sin Real.cos Real.sqrt Real.pi)
      flatFloor (1 / 300) s).playerCollider.end_.y
        = s.playerCollider.end_.y + (updatePlayerVelocity
            (JSMath.mk Real.exp Real.sin Real.cos Real.sqrt Real.pi) (1 / 300)
            s).playerVelocity.y * (1 / 300) := by
    rw [h3]
    rfl
  have hcam := updatePlayer_camera_mono
    (JSMath.mk Real.exp Real.sin Real.cos Real.sqrt Real.pi) flatFloor (1 / 300) s hm
  have hcy : (updatePlayer (JSMath.mk Real.exp Real.sin Real.cos Real.sqrt Real.pi)
      flatFloor (1 / 300) s).camera.position.y
        = s.camera.position.y
          + ((updatePlayer (JSMath.mk Real.exp Real.sin Real.cos Real.sqrt Real.pi)
              flatFloor (1 / 300) s).playerCollider.end_.y + 15 / 100
              + Real.sin (2 / 10) * (4 / 10) - s.camera.position.y) * (1 / 10) := by
    rw [hcam]
    simp only [Vec3.lerp, finalCameraPosition_flatFloor_y]
  have hsin := Real.neg_one_le_sin (2 / 10)
  have hno : ¬ (updatePlayer (JSMath.mk Real.exp Real.sin Real.cos Real.sqrt Real.pi)
      flatFloor (1 / 300) s).camera.position.y ≤ -25 := by
    rw [hcy, hend]
    intro h
    linarith
  rw [subStep_eq_updatePlayer _ _ _ _ hno, updatePlayer_isVRMode, h2, hcy, hend]
  refine ⟨hm, h1, hv1, hv2, ?_, ?_, ?_⟩ <;> linarith

/-- The damped vertical velocity of a body already on the floor. -/
theorem landing_velocity (s : Sim ℝ) (b b' : ℝ) (hf : s.playerOnFloor = true)
    (hv1 : -1 / 10 ≤ s.playerVelocity.y) (hv2 : s.playerVelocity.y ≤ -b)
    (hb : 0 ≤ b) (hbb : b' ≤ b * (74 / 75)) :
    -1 / 10 ≤ (updatePlayerVelocity
      (JSMath.mk Real.exp Real.sin Real.cos Real.sqrt Real.pi) (1 / 300) s).playerVelocity.y ∧
    (updatePlayerVelocity
      (JSMath.mk Real.exp Real.sin Real.cos Real.sqrt Real.pi) (1 / 300) s).playerVelocity.y
        ≤ -b' := by
  obtain ⟨he0, he1⟩ := exp_subStep_bounds
  have hy : (updatePlayerVelocity
      (JSMath.mk Real.exp Real.sin Real.cos Real.sqrt Real.pi) (1 / 300) s).playerVelocity.y
        = s.playerVelocity.y * Real.exp (-4 * (1 / 300)) := by
    simp only [updatePlayerVelocity, hf, Bool.not_true, Bool.false_eq_true, if_false,
      Vec3.addScaledVector]
    ring
  rw [hy]
  constructor
  · nlinarith [mul_nonneg (by linarith : (0 : ℝ) ≤ -s.playerVelocity.y)
      (by linarith : (0 : ℝ) ≤ 1 - Real.exp (-4 * (1 / 300)))]
  · nlinarith [mul_nonneg (by linarith : (0 : ℝ) ≤ -b - s.playerVelocity.y)
        (by linarith : (0 : ℝ) ≤ Real.exp (-4 * (1 / 300))),
      mul_nonneg hb (by linarith : (0 : ℝ) ≤ Real.exp (-4 * (1 / 300)) - 74 / 75)]

/-- The damped vertical velocity of the first sub-step from the initial state,
where the floor flag is still `false` and gravity is applied. -/
theorem first_velocity :
    -1 / 10 ≤ (updatePlayerVelocity
      (JSMath.mk Real.exp Real.sin Real.cos Real.sqrt Real.pi) (1 / 300)
      (initialSim : Sim ℝ)).playerVelocity.y ∧
    (updatePlayerVelocity
      (JSMath.mk Real.exp Real.sin Real.cos Real.sqrt Real.pi) (1 / 300)
      (initialSim : Sim ℝ)).playerVelocity.y ≤ -(99 / 1000) := by
  obtain ⟨he0, he1⟩ := exp_subStep_bounds
  have hy : (updatePlayerVelocity
      (JSMath.mk Real.exp Real.sin Real.cos Real.sqrt Real.pi) (1 / 300)
      (initialSim : Sim ℝ)).playerVelocity.y
        = -(1 / 10) * (1 + (Real.exp (-4 * (1 / 300)) - 1) * (1 / 10)) := by
    simp only [updatePlayerVelocity, initialSim, Vec3.zero, GRAVITY, Bool.not_false, if_true,
      Vec3.addScaledVector]
    ring
  rw [hy]
  constructor <;> linarith

theorem subStepTime_sixtieth : subStepTime (1 / 60 : ℝ) = 1 / 300 := by
  simp only [subStepTime, STEPS_PER_FRAME]
  rw [min_eq_right (by norm_num)]
  norm_num

/-- Counterexample to C6 as stated: from the initial state of the program (zero
velocity, default capsule, floor-contact flag `false`) on the flat floor, one
frame step with frame time 1/60 leaves a vertical velocity below -0.09 and the
capsule end-point more than 0.001 below its starting height 0.3. -/
theorem grounded_rest_flag_false_counterexample :
    (initialSim : Sim ℝ).playerVelocity = ⟨0, 0, 0⟩ ∧
    (initialSim : Sim ℝ).playerCollider = defaultCollider ∧
    (initialSim : Sim ℝ).playerOnFloor = false ∧
    (animate (JSMath.mk Real.exp Real.sin Real.cos Real.sqrt Real.pi) flatFloor (1 / 60)
        (initialSim : Sim ℝ)).playerVelocity.y < -(9 / 100) ∧
    (animate (JSMath.mk Real.exp Real.sin Real.cos Real.sqrt Real.pi) flatFloor (1 / 60)
        (initialSim : Sim ℝ)).playerCollider.end_.y < 3 / 10 - 1 / 1000 := by
  refine ⟨rfl, rfl, rfl, ?_⟩
  obtain ⟨hV, hC, -, -, -⟩ := animate_fields
    (JSMath.mk Real.exp Real.sin Real.cos Real.sqrt Real.pi) flatFloor (1 / 60)
    (initialSim : Sim ℝ)
  rw [hV, hC, subStepTime_sixtieth, iterate_five]
  obtain ⟨m1, f1, a1, b1, c1, d1, k1⟩ := landing_core (initialSim : Sim ℝ) (99 / 1000)
    (3 / 10) (3 / 10) rfl first_velocity.1 first_velocity.2
    (by norm_num [initialSim, defaultCollider]) (by norm_num [initialSim, defaultCollider])
    (by norm_num) (by norm_num [initialSim, Vec3.zero])
  obtain ⟨u2, v2⟩ := landing_velocity _ (99 / 1000) (97 / 1000) f1 a1 b1
    (by norm_num) (by norm_num)
  obtain ⟨m2, f2, a2, b2, c2, d2, k2⟩ := landing_core _ (97 / 1000) _ _ m1 u2 v2 c1 d1
    (by norm_num) k1
  obtain ⟨u3, v3⟩ := landing_velocity _ (97 / 1000) (95 / 1000) f2 a2 b2
    (by norm_num) (by norm_num)
  obtain ⟨m3, f3, a3, b3, c3, d3, k3⟩ := landing_core _ (95 / 1000) _ _ m2 u3 v3 c2 d2
    (by norm_num) k2
  obtain ⟨u4, v4⟩ := landing_velocity _ (95 / 1000) (93 / 1000) f3 a3 b3
    (by norm_num) (by norm_num)
  obtain ⟨m4, f4, a4, b4, c4, d4, k4⟩ := landing_core _ (93 / 1000) _ _ m3 u4 v4 c3 d3
    (by norm_num) k3
  obtain ⟨u5, v5⟩ := landing_velocity _ (93 / 1000) (91 / 1000) f4 a4 b4
    (by norm_num) (by norm_num)
  obtain ⟨-, -, -, b5, -, d5, -⟩ := landing_core _ (91 / 1000) _ _ m4 u5 v5 c4 d4
    (by norm_num) k4
  constructor <;> linarith

end Landing

/-! ## Mono camera and out-of-bounds recovery -/

section MonoCamera

variable {α : Type} [LinearOrderedField α]

/-- While the recovery does not fire and the computed camera position is `p` at
each of the first `k` sub-steps, the mono camera takes `k` lerp steps towards `p`. -/
theorem iterate_subStep_camera (M : JSMath α) (W : Octree α) (dt : α) (s : Sim α)
    (p : Vec3 α) (k : Nat) (hm : s.isVRMode = false)
    (hp : ∀ j, j < k →
      (cameraRig M W (updatePlayer M W dt
        ((subStep M W dt)^[j] s)).playerCollider.end_).finalCameraPosition = p)
    (hno : ∀ j, j < k →
      ¬ (updatePlayer M W dt ((subStep M W dt)^[j] s)).camera.position.y ≤ -25) :
    ((subStep M W dt)^[k] s).isVRMode = false ∧
    ((subStep M W dt)^[k] s).camera.position
      = (fun c : Vec3 α => c.lerp p (1 / 10))^[k] s.camera.position := by
  induction k with
  | zero => exact ⟨hm, rfl⟩
  | succ k ih =>
    obtain ⟨ihm, ihc⟩ := ih (fun j hj => hp j (Nat.lt_succ_of_lt hj))
      (fun j hj => hno j (Nat.lt_succ_of_lt hj))
    rw [Function.iterate_succ_apply', Function.iterate_succ_apply',
      subStep_eq_updatePlayer M W dt _ (hno k (Nat.lt_succ_self k))]
    refine ⟨by rw [updatePlayer_isVRMode, ihm], ?_⟩
    rw [updatePlayer_camera_mono M W dt _ ihm, hp k (Nat.lt_succ_self k), ihc]

theorem lerp_y (a v : Vec3 α) (t : α) : (a.lerp v t).y = a.y + (v.y - a.y) * t := rfl

theorem lerp_five (c p : Vec3 α) :
    (fun c : Vec3 α => c.lerp p (1 / 10))^[5] c = c.lerp p (1 - (9 / 10) ^ 5) := by
  rw [iterate_five]
  simp only [Vec3.lerp, Vec3.mk.injEq]
  refine ⟨?_, ?_, ?_⟩ <;> ring

/-- A body at rest on the floor, with the camera and the camera position computed
for the capsule both above -25, stays at rest through any number of sub-steps,
the camera lerping towards that position, and the recovery never fires. -/
theorem iterate_subStep_rest (M : JSMath α) (W : Octree α) (dt : α) (c : Capsule α)
    (hW : ∀ c, W.capsuleIntersect c = some ⟨⟨0, 1, 0⟩, 0⟩)
    (hP : -25 < (cameraRig M W c.end_).finalCameraPosition.y) (k : Nat) (s : Sim α)
    (cam : Vec3 α) (h : RestAt c cam s) (hcam : -25 < cam.y) :
    RestAt c ((fun v : Vec3 α => v.lerp (cameraRig M W c.end_).finalCameraPosition
        (1 / 10))^[k] cam) ((subStep M W dt)^[k] s) ∧
    -25 < ((fun v : Vec3 α => v.lerp (cameraRig M W c.end_).finalCameraPosition
        (1 / 10))^[k] cam).y := by
  induction k generalizing s cam with
  | zero => exact ⟨h, hcam⟩
  | succ k ih =>
    have hy : -25 < (cam.lerp (cameraRig M W c.end_).finalCameraPosition (1 / 10)).y := by
      simp only [Vec3.lerp]
      linarith
    rw [Function.iterate_succ_apply, Function.iterate_succ_apply]
    exact ih _ _ (subStep_rest M W dt s c cam hW h (not_le.mpr hy)) hy

/-- In the situation of `iterate_subStep_rest`, every sub-step computes the same
camera position and none fires the recovery. -/
theorem rest_same_target (M : JSMath α) (W : Octree α) (dt : α) (c : Capsule α)
    (hW : ∀ c, W.capsuleIntersect c = some ⟨⟨0, 1, 0⟩, 0⟩)
    (hP : -25 < (cameraRig M W c.end_).finalCameraPosition.y) (s : Sim α)
    (cam : Vec3 α) (h : RestAt c cam s) (hcam : -25 < cam.y) (j : Nat) :
    (cameraRig M W (updatePlayer M W dt
        ((subStep M W dt)^[j] s)).playerCollider.end_).finalCameraPosition
      = (cameraRig M W c.end_).finalCameraPosition ∧
    ¬ (updatePlayer M W dt ((subStep M W dt)^[j] s)).camera.position.y ≤ -25 := by
  obtain ⟨hr, hy⟩ := iterate_subStep_rest M W dt c hW hP j s cam h hcam
  have hu := updatePlayer_rest M W dt _ c _ hW hr
  refine ⟨by rw [hu.2.2.1], ?_⟩
  rw [hu.2.2.2.2, lerp_y, not_le]
  linarith

/-- C9 (amended). In mono mode, when the computed `finalCameraPosition` is the
same point `p` at each of the five sub-steps of a frame and the recovery does not
fire, the frame moves the camera from `c` to `c + (1 - 0.9^5) * (p - c)`
(`1 - 0.9^5 = 0.40951`): the lerp with factor 0.1 is applied once per sub-step,
five times per frame, and the camera is aimed at the look-at point each time. -/
theorem mono_camera_smoothing (M : JSMath α) (W : Octree α) (frameDeltaTime : α)
    (s : Sim α) (p : Vec3 α) (hm : s.isVRMode = false)
    (hp : ∀ j, j < 5 →
      (cameraRig M W (updatePlayer M W (subStepTime frameDeltaTime)
        ((subStep M W (subStepTime frameDeltaTime))^[j] s)).playerCollider.end_
        ).finalCameraPosition = p)
    (hno : ∀ j, j < 5 →
      ¬ (updatePlayer M W (subStepTime frameDeltaTime)
        ((subStep M W (subStepTime frameDeltaTime))^[j] s)).camera.position.y ≤ -25) :
    (animate M W frameDeltaTime s).camera.position
      = (fun c : Vec3 α => c.lerp p (1 / 10))^[5] s.camera.position ∧
    (animate M W frameDeltaTime s).camera.position
      = s.camera.position.lerp p (1 - (9 / 10) ^ 5) := by
  obtain ⟨-, -, -, hC, -⟩ := animate_fields M W frameDeltaTime s
  obtain ⟨-, h5⟩ := iterate_subStep_camera M W (subStepTime frameDeltaTime) s p 5 hm hp hno
  have hfive : (animate M W frameDeltaTime s).camera.position
      = (fun c : Vec3 α => c.lerp p (1 / 10))^[5] s.camera.position := by
    rw [hC, h5]
  refine ⟨hfive, ?_⟩
  rw [hfive, lerp_five]

/-- C1 (amended). If the camera height `camera.position.y` is at or below -25
when the last of the five sub-steps makes its out-of-bounds check (the check
reads the camera, not the body), the frame step ends with zero velocity and the
capsule exactly at its default pose. -/
theorem teleport_recovery (M : JSMath α) (W : Octree α) (frameDeltaTime : α) (s : Sim α)
    (h : (updatePlayer M W (subStepTime frameDeltaTime)
      ((subStep M W (subStepTime frameDeltaTime))^[4] s)).camera.position.y ≤ -25) :
    (animate M W frameDeltaTime s).playerVelocity = ⟨0, 0, 0⟩ ∧
    (animate M W frameDeltaTime s).playerCollider = defaultCollider ∧
    (animate M W frameDeltaTime s).playerCollider.start = ⟨0, 0, 0⟩ ∧
    (animate M W frameDeltaTime s).playerCollider.end_ = ⟨0, 3 / 10, 0⟩ ∧
    (animate M W frameDeltaTime s).playerCollider.radius = 7 / 100 := by
  obtain ⟨hV, hC, -, -, -⟩ := animate_fields M W frameDeltaTime s
  have h5 : (subStep M W (subStepTime frameDeltaTime))^[5] s
      = subStep M W (subStepTime frameDeltaTime)
          ((subStep M W (subStepTime frameDeltaTime))^[4] s) :=
    Function.iterate_succ_apply' _ 4 s
  obtain ⟨h1, h2⟩ := subStep_teleports M W (subStepTime frameDeltaTime) _ h
  rw [hV, hC, h5, h1, h2]
  exact ⟨rfl, rfl, rfl, rfl, rfl⟩

end MonoCamera

section MonoCameraReal

theorem sin_one_fifth_nonneg : 0 ≤ Real.sin (2 / 10) :=
  Real.sin_nonneg_of_nonneg_of_le_pi (by norm_num) (by linarith [Real.pi_gt_three])

theorem restAt_restingAt (h : ℝ) :
    RestAt (restingAt h : Sim ℝ).playerCollider ⟨0, 0, 0⟩ (restingAt h : Sim ℝ) :=
  ⟨rfl, rfl, rfl, rfl, rfl⟩

/-- Counterexample to C9 as stated: with the body at rest at the default pose on
the flat floor and the camera at the origin, every sub-step of the frame computes
the same camera position and none fires the recovery, yet the frame does not move
the camera to `c + 0.1 * (p - c)`. -/
theorem mono_camera_once_per_frame_counterexample :
    (restingAt (3 / 10) : Sim ℝ).isVRMode = false ∧
    (∀ j, j < 5 →
      (cameraRig (JSMath.mk Real.exp Real.sin Real.cos Real.sqrt Real.pi) flatFloor
        (updatePlayer (JSMath.mk Real.exp Real.sin Real.cos Real.sqrt Real.pi) flatFloor
          (subStepTime (1 / 60))
          ((subStep (JSMath.mk Real.exp Real.sin Real.cos Real.sqrt Real.pi) flatFloor
            (subStepTime (1 / 60)))^[j] (restingAt (3 / 10)))).playerCollider.end_
        ).finalCameraPosition
      = (cameraRig (JSMath.mk Real.exp Real.sin Real.cos Real.sqrt Real.pi) flatFloor
          ⟨0, 3 / 10, 0⟩).finalCameraPosition) ∧
    (∀ j, j < 5 →
      ¬ (updatePlayer (JSMath.mk Real.exp Real.sin Real.cos Real.sqrt Real.pi) flatFloor
          (subStepTime (1 / 60))
          ((subStep (JSMath.mk Real.exp Real.sin Real.cos Real.sqrt Real.pi) flatFloor
            (subStepTime (1 / 60)))^[j] (restingAt (3 / 10)))).camera.position.y ≤ -25) ∧
    (animate (JSMath.mk Real.exp Real.sin Real.cos Real.sqrt Real.pi) flatFloor (1 / 60)
        (restingAt (3 / 10) : Sim ℝ)).camera.position
      ≠ (restingAt (3 / 10) : Sim ℝ).camera.position.lerp
          (cameraRig (JSMath.mk Real.exp Real.sin Real.cos Real.sqrt Real.pi) flatFloor
            ⟨0, 3 / 10, 0⟩).finalCameraPosition (1 / 10) := by
  have hsin := sin_one_fifth_nonneg
  have hPy : (cameraRig (JSMath.mk Real.exp Real.sin Real.cos Real.sqrt Real.pi) flatFloor
      (restingAt (3 / 10) : Sim ℝ).playerCollider.end_).finalCameraPosition.y
        = 3 / 10 + 15 / 100 + Real.sin (2 / 10) * (4 / 10) :=
    finalCameraPosition_flatFloor_y _ _
  have hP : -25 < (cameraRig (JSMath.mk Real.exp Real.sin Real.cos Real.sqrt Real.pi)
      flatFloor (restingAt (3 / 10) : Sim ℝ).playerCollider.end_).finalCameraPosition.y := by
    rw [hPy]
    linarith
  have htarget := rest_same_target (JSMath.mk Real.exp Real.sin Real.cos Real.sqrt Real.pi)
    flatFloor (subStepTime (1 / 60)) (restingAt (3 / 10) : Sim ℝ).playerCollider
    (fun _ => rfl) hP (restingAt (3 / 10)) ⟨0, 0, 0⟩ (restAt_restingAt (3 / 10))
    (by norm_num)
  refine ⟨rfl, fun j _ => (htarget j).1, fun j _ => (htarget j).2, ?_⟩
  obtain ⟨-, -, -, hC, -⟩ := animate_fields
    (JSMath.mk Real.exp Real.sin Real.cos Real.sqrt Real.pi) flatFloor (1 / 60)
    (restingAt (3 / 10) : Sim ℝ)
  obtain ⟨-, h5⟩ := iterate_subStep_camera
    (JSMath.mk Real.exp Real.sin Real.cos Real.sqrt Real.pi) flatFloor
    (subStepTime (1 / 60)) (restingAt (3 / 10) : Sim ℝ) _ 5 rfl
    (fun j _ => (htarget j).1) (fun j _ => (htarget j).2)
  rw [hC, h5, lerp_five]
  intro hne
  have hy := congrArg Vec3.y hne
  rw [lerp_y, lerp_y] at hy
  have hPy2 : (cameraRig (JSMath.mk Real.exp Real.sin Real.cos Real.sqrt Real.pi) flatFloor
      (⟨0, 3 / 10, 0⟩ : Vec3 ℝ)).finalCameraPosition.y
        = 3 / 10 + 15 / 100 + Real.sin (2 / 10) * (4 / 10) :=
    finalCameraPosition_flatFloor_y _ _
  have hc0 : (restingAt (3 / 10) : Sim ℝ).camera.position.y = 0 := rfl
  have hend : (restingAt (3 / 10) : Sim ℝ).playerCollider.end_ = ⟨0, 3 / 10, 0⟩ := rfl
  rw [hend, hPy2, hc0] at hy
  norm_num at hy
  linarith

/-- Witness for C9 (amended): the body at rest at the default pose on the flat
floor, camera at the origin, frame time 1/60. -/
theorem mono_camera_smoothing_witness :
    (animate (JSMath.mk Real.exp Real.sin Real.cos Real.sqrt Real.pi) flatFloor (1 / 60)
        (restingAt (3 / 10) : Sim ℝ)).camera.position
      = (fun c : Vec3 ℝ => c.lerp
          (cameraRig (JSMath.mk Real.exp Real.sin Real.cos Real.sqrt Real.pi) flatFloor
            (restingAt (3 / 10) : Sim ℝ).playerCollider.end_).finalCameraPosition
          (1 / 10))^[5] (restingAt (3 / 10) : Sim ℝ).camera.position ∧
    (animate (JSMath.mk Real.exp Real.sin Real.cos Real.sqrt Real.pi) flatFloor (1 / 60)
        (restingAt (3 / 10) : Sim ℝ)).camera.position
      = (restingAt (3 / 10) : Sim ℝ).camera.position.lerp
          (cameraRig (JSMath.mk Real.exp Real.sin Real.cos Real.sqrt Real.pi) flatFloor
            (restingAt (3 / 10) : Sim ℝ).playerCollider.end_).finalCameraPosition
          (1 - (9 / 10) ^ 5) :=
  have hP : -25 < (cameraRig (JSMath.mk Real.exp Real.sin Real.cos Real.sqrt Real.pi)
      flatFloor (restingAt (3 / 10) : Sim ℝ).playerCollider.end_).finalCameraPosition.y := by
    rw [finalCameraPosition_flatFloor_y]
    have hsin := sin_one_fifth_nonneg
    have hend : (restingAt (3 / 10) : Sim ℝ).playerCollider.end_.y = 3 / 10 := rfl
    rw [hend]
    show -25 < 3 / 10 + 15 / 100 + Real.sin (2 / 10) * (4 / 10)
    linarith
  mono_camera_smoothing (JSMath.mk Real.exp Real.sin Real.cos Real.sqrt Real.pi) flatFloor
    (1 / 60) (restingAt (3 / 10) : Sim ℝ) _ rfl
    (fun j _ => (rest_same_target _ flatFloor _ _ (fun _ => rfl) hP (restingAt (3 / 10))
      ⟨0, 0, 0⟩ (restAt_restingAt (3 / 10)) (by norm_num) j).1)
    (fun j _ => (rest_same_target _ flatFloor _ _ (fun _ => rfl) hP (restingAt (3 / 10))
      ⟨0, 0, 0⟩ (restAt_restingAt (3 / 10)) (by norm_num) j).2)

/-- Counterexample to C1 as stated: in mono mode with the camera at the origin
and the body standing at height -25.1 (at or below -25), one frame step with frame
time 1/60 leaves the capsule where it was, not at its default pose: the camera
position computed for that capsule is above -25, so the camera never reaches -25. -/
theorem teleport_reads_camera_counterexample :
    (restingAt (-251 / 10) : Sim ℝ).playerCollider.end_.y ≤ -25 ∧
    (animate (JSMath.mk Real.exp Real.sin Real.cos Real.sqrt Real.pi) flatFloor (1 / 60)
        (restingAt (-251 / 10) : Sim ℝ)).playerCollider
      = (restingAt (-251 / 10) : Sim ℝ).playerCollider ∧
    (animate (JSMath.mk Real.exp Real.sin Real.cos Real.sqrt Real.pi) flatFloor (1 / 60)
        (restingAt (-251 / 10) : Sim ℝ)).playerCollider ≠ defaultCollider := by
  have hsin := sin_one_fifth_nonneg
  have hP : -25 < (cameraRig (JSMath.mk Real.exp Real.sin Real.cos Real.sqrt Real.pi)
      flatFloor (restingAt (-251 / 10) : Sim ℝ).playerCollider.end_).finalCameraPosition.y := by
    rw [finalCameraPosition_flatFloor_y]
    show -25 < -251 / 10 + 15 / 100 + Real.sin (2 / 10) * (4 / 10)
    linarith
  obtain ⟨hr, -⟩ := iterate_subStep_rest
    (JSMath.mk Real.exp Real.sin Real.cos Real.sqrt Real.pi) flatFloor
    (subStepTime (1 / 60)) (restingAt (-251 / 10) : Sim ℝ).playerCollider
    (fun _ => rfl) hP 5 (restingAt (-251 / 10)) ⟨0, 0, 0⟩ (restAt_restingAt (-251 / 10))
    (by norm_num)
  obtain ⟨-, hC, -, -, -⟩ := animate_fields
    (JSMath.mk Real.exp Real.sin Real.cos Real.sqrt Real.pi) flatFloor (1 / 60)
    (restingAt (-251 / 10) : Sim ℝ)
  have hsame : (animate (JSMath.mk Real.exp Real.sin Real.cos Real.sqrt Real.pi) flatFloor
      (1 / 60) (restingAt (-251 / 10) : Sim ℝ)).playerCollider
        = (restingAt (-251 / 10) : Sim ℝ).playerCollider := by
    rw [hC]
    exact hr.2.2.1
  refine ⟨by norm_num [restingAt], hsame, ?_⟩
  rw [hsame]
  intro h
  have hy := congrArg (fun c : Capsule ℝ => c.end_.y) h
  norm_num [restingAt, defaultCollider] at hy

/-- With the body standing at height -65 and the camera starting at the origin,
the camera stays above -25 during the first four sub-steps of a frame and is at
or below -25 at the check of the fifth. -/
theorem deep_rest_fifth_check :
    (updatePlayer (JSMath.mk Real.exp Real.sin Real.cos Real.sqrt Real.pi) flatFloor
      (subStepTime (1 / 60))
      ((subStep (JSMath.mk Real.exp Real.sin Real.cos Real.sqrt Real.pi) flatFloor
        (subStepTime (1 / 60)))^[4] (restingAt (-65) : Sim ℝ))).camera.position.y ≤ -25 := by
  have hlo := Real.neg_one_le_sin (2 / 10)
  have hhi := Real.sin_le_one (2 / 10)
  have hend : (restingAt (-65) : Sim ℝ).playerCollider.end_.y = -65 := rfl
  have hPy : (cameraRig (JSMath.mk Real.exp Real.sin Real.cos Real.sqrt Real.pi) flatFloor
      (restingAt (-65) : Sim ℝ).playerCollider.end_).finalCameraPosition.y
        = -65 + 15 / 100 + Real.sin (2 / 10) * (4 / 10) := by
    rw [finalCameraPosition_flatFloor_y, hend]
  have h0 := restAt_restingAt (-65)
  have h1 := subStep_rest (JSMath.mk Real.exp Real.sin Real.cos Real.sqrt Real.pi) flatFloor
    (subStepTime (1 / 60)) _ _ _ (fun _ => rfl) h0
    (by rw [lerp_y, hPy, not_le]; norm_num; linarith)
  have h2 := subStep_rest (JSMath.mk Real.exp Real.sin Real.cos Real.sqrt Real.pi) flatFloor
    (subStepTime (1 / 60)) _ _ _ (fun _ => rfl) h1
    (by rw [lerp_y, lerp_y, hPy, not_le]; norm_num; linarith)
  have h3 := subStep_rest (JSMath.mk Real.exp Real.sin Real.cos Real.sqrt Real.pi) flatFloor
    (subStepTime (1 / 60)) _ _ _ (fun _ => rfl) h2
    (by rw [lerp_y, lerp_y, lerp_y, hPy, not_le]; norm_num; linarith)
  have h4 := subStep_rest (JSMath.mk Real.exp Real.sin Real.cos Real.sqrt Real.pi) flatFloor
    (subStepTime (1 / 60)) _ _ _ (fun _ => rfl) h3
    (by rw [lerp_y, lerp_y, lerp_y, lerp_y, hPy, not_le]; norm_num; linarith)
  have hu := updatePlayer_rest (JSMath.mk Real.exp Real.sin Real.cos Real.sqrt Real.pi)
    flatFloor (subStepTime (1 / 60)) _ _ _ (fun _ => rfl) h4
  show (updatePlayer (JSMath.mk Real.exp Real.sin Real.cos Real.sqrt Real.pi) flatFloor
      (subStepTime (1 / 60))
      (subStep _ flatFloor (subStepTime (1 / 60)) (subStep _ flatFloor (subStepTime (1 / 60))
        (subStep _ flatFloor (subStepTime (1 / 60)) (subStep _ flatFloor
          (subStepTime (1 / 60)) (restingAt (-65) : Sim ℝ)))))).camera.position.y ≤ -25
  rw [hu.2.2.2.2, lerp_y, lerp_y, lerp_y, lerp_y, lerp_y, hPy]
  norm_num
  linarith

/-- Witness for C1 (amended): mono mode, camera at the origin, the body standing
at height -65; the camera reaches -25 at the fifth sub-step of the frame. -/
theorem teleport_recovery_witness :
    (animate (JSMath.mk Real.exp Real.sin Real.cos Real.sqrt Real.pi) flatFloor (1 / 60)
        (restingAt (-65) : Sim ℝ)).playerVelocity = ⟨0, 0, 0⟩ ∧
    (animate (JSMath.mk Real.exp Real.sin Real.cos Real.sqrt Real.pi) flatFloor (1 / 60)
        (restingAt (-65) : Sim ℝ)).playerCollider = defaultCollider ∧
    (animate (JSMath.mk Real.exp Real.sin Real.cos Real.sqrt Real.pi) flatFloor (1 / 60)
        (restingAt (-65) : Sim ℝ)).playerCollider.start = ⟨0, 0, 0⟩ ∧
    (animate (JSMath.mk Real.exp Real.sin Real.cos Real.sqrt Real.pi) flatFloor (1 / 60)
        (restingAt (-65) : Sim ℝ)).playerCollider.end_ = ⟨0, 3 / 10, 0⟩ ∧
    (animate (JSMath.mk Real.exp Real.sin Real.cos Real.sqrt Real.pi) flatFloor (1 / 60)
        (restingAt (-65) : Sim ℝ)).playerCollider.radius = 7 / 100 :=
  teleport_recovery (JSMath.mk Real.exp Real.sin Real.cos Real.sqrt Real.pi) flatFloor
    (1 / 60) (restingAt (-65) : Sim ℝ) deep_rest_fifth_check

end MonoCameraReal

/-! ## Recovery in VR mode -/

section VRRecovery

variable {α : Type} [LinearOrderedField α]

theorem updateThirdPersonCamera_camera_vr (M : JSMath α) (W : Octree α) (s : Sim α)
    (hvr : s.isVRMode = true) : (updateThirdPersonCamera M W s).camera = s.camera := by
  simp only [updateThirdPersonCamera, hvr, if_true]

theorem teleportPlayerIfOob_above (s : Sim α) (h : -25 < s.camera.position.y) :
    teleportPlayerIfOob s = s := by
  simp only [teleportPlayerIfOob, not_le.mpr h, if_false]

/-- In VR mode with the camera above -25, a sub-step is `updatePlayer` alone and
leaves the camera and the mode as they were. -/
theorem subStep_vr (M : JSMath α) (W : Octree α) (dt : α) (s : Sim α)
    (hvr : s.isVRMode = true) (hcam : -25 < s.camera.position.y) :
    subStep M W dt s = updatePlayer M W dt s ∧
    (subStep M W dt s).isVRMode = true ∧ (subStep M W dt s).camera = s.camera := by
  have hc := updatePlayer_camera_vr M W dt s hvr
  have hno : ¬ (updatePlayer M W dt s).camera.position.y ≤ -25 := by
    rw [hc]
    exact not_le.mpr hcam
  have he := subStep_eq_updatePlayer M W dt s hno
  refine ⟨he, ?_, ?_⟩
  · rw [subStep_isVRMode, hvr]
  · rw [he, hc]

theorem iterate_subStep_vr (M : JSMath α) (W : Octree α) (dt : α) (k : Nat) (s : Sim α)
    (hvr : s.isVRMode = true) :
    ((subStep M W dt)^[k] s).isVRMode = true ∧
    (-25 < s.camera.position.y → ((subStep M W dt)^[k] s).camera = s.camera) := by
  induction k with
  | zero => exact ⟨hvr, fun _ => rfl⟩
  | succ k ih =>
    obtain ⟨ihm, ihc⟩ := ih
    rw [Function.iterate_succ_apply']
    refine ⟨by rw [subStep_isVRMode, ihm], ?_⟩
    intro hcam
    have hk := ihc hcam
    rw [(subStep_vr M W dt _ ihm (by rw [hk]; exact hcam)).2.2, hk]

theorem animate_vr (M : JSMath α) (W : Octree α) (frameDeltaTime : α) (s : Sim α)
    (hvr : s.isVRMode = true) (hcam : -25 < s.camera.position.y) :
    (animate M W frameDeltaTime s).isVRMode = true ∧
    (animate M W frameDeltaTime s).camera = s.camera := by
  obtain ⟨-, -, -, hC, hM⟩ := animate_fields M W frameDeltaTime s
  obtain ⟨h1, h2⟩ := iterate_subStep_vr M W (subStepTime frameDeltaTime) 5 s hvr
  exact ⟨by rw [hM, h1], by rw [hC, h2 hcam]⟩

theorem runFrames_vr (M : JSMath α) (frames : List (Octree α × α)) (s : Sim α)
    (hvr : s.isVRMode = true) (hcam : -25 < s.camera.position.y) :
    (runFrames M frames s).isVRMode = true ∧ (runFrames M frames s).camera = s.camera := by
  induction frames generalizing s with
  | nil => exact ⟨hvr, rfl⟩
  | cons f rest ih =>
    obtain ⟨W, frameDeltaTime⟩ := f
    obtain ⟨h1, h2⟩ := animate_vr M W frameDeltaTime s hvr hcam
    obtain ⟨h3, h4⟩ := ih (animate M W frameDeltaTime s) h1 (by rw [h2]; exact hcam)
    exact ⟨h3, by rw [runFrames, h4, h2]⟩

/-- C11. While `isVRMode` is true `updateThirdPersonCamera` does not write
`camera.position`; so from a VR-mode state whose `camera.position.y` is above -25,
through any run of frame steps with any world answers and clock deltas, the mode
and the camera position stay as they were and every call of `teleportPlayerIfOob`
returns the state it was given: neither the capsule nor the velocity is reset,
wherever the capsule is. -/
theorem vr_recovery_never_fires (M : JSMath α) (frames : List (Octree α × α)) (s : Sim α)
    (hvr : s.isVRMode = true) (hcam : -25 < s.camera.position.y) :
    (∀ (W : Octree α) (t : Sim α), t.isVRMode = true →
      (updateThirdPersonCamera M W t).camera.position = t.camera.position) ∧
    (runFrames M frames s).isVRMode = true ∧
    (runFrames M frames s).camera.position = s.camera.position ∧
    (∀ (pre post : List (Octree α × α)) (W : Octree α) (frameDeltaTime : α),
      frames = pre ++ (W, frameDeltaTime) :: post → ∀ j, j < 5 →
        teleportPlayerIfOob (updatePlayer M W (subStepTime frameDeltaTime)
            ((subStep M W (subStepTime frameDeltaTime))^[j] (runFrames M pre s)))
          = updatePlayer M W (subStepTime frameDeltaTime)
              ((subStep M W (subStepTime frameDeltaTime))^[j] (runFrames M pre s))) := by
  obtain ⟨hm, hc⟩ := runFrames_vr M frames s hvr hcam
  refine ⟨?_, hm, by rw [hc], ?_⟩
  · intro W t ht
    rw [updateThirdPersonCamera_camera_vr M W t ht]
  · intro pre post W frameDeltaTime _ j _
    obtain ⟨pm, pc⟩ := runFrames_vr M pre s hvr hcam
    have pcam : -25 < (runFrames M pre s).camera.position.y := by
      rw [pc]
      exact hcam
    obtain ⟨jm, jc⟩ := iterate_subStep_vr M W (subStepTime frameDeltaTime) j
      (runFrames M pre s) pm
    apply teleportPlayerIfOob_above
    rw [updatePlayer_camera_vr M W (subStepTime frameDeltaTime) _ jm, jc pcam]
    exact pcam

/-- Witness for C11: VR mode, camera at the origin, the capsule end-point at
height -100, two frames on a world that reports no contact. -/
theorem vr_recovery_never_fires_witness :
    (∀ (W : Octree ℝ) (t : Sim ℝ), t.isVRMode = true →
      (updateThirdPersonCamera (JSMath.mk Real.exp Real.sin Real.cos Real.sqrt Real.pi)
        W t).camera.position = t.camera.position) ∧
    (runFrames (JSMath.mk Real.exp Real.sin Real.cos Real.sqrt Real.pi)
      [(constantWorld none, 1 / 60), (constantWorld none, 1 / 60)]
      { (restingAt (-100) : Sim ℝ) with isVRMode := true }).isVRMode = true ∧
    (runFrames (JSMath.mk Real.exp Real.sin Real.cos Real.sqrt Real.pi)
      [(constantWorld none, 1 / 60), (constantWorld none, 1 / 60)]
      { (restingAt (-100) : Sim ℝ) with isVRMode := true }).camera.position
      = ({ (restingAt (-100) : Sim ℝ) with isVRMode := true } : Sim ℝ).camera.position ∧
    (∀ (pre post : List (Octree ℝ × ℝ)) (W : Octree ℝ) (frameDeltaTime : ℝ),
      [(constantWorld none, 1 / 60), (constantWorld none, 1 / 60)]
        = pre ++ (W, frameDeltaTime) :: post → ∀ j, j < 5 →
        teleportPlayerIfOob
            (updatePlayer (JSMath.mk Real.exp Real.sin Real.cos Real.sqrt Real.pi) W
              (subStepTime frameDeltaTime)
              ((subStep (JSMath.mk Real.exp Real.sin Real.cos Real.sqrt Real.pi) W
                (subStepTime frameDeltaTime))^[j]
                (runFrames (JSMath.mk Real.exp Real.sin Real.cos Real.sqrt Real.pi) pre
                  { (restingAt (-100) : Sim ℝ) with isVRMode := true })))
          = updatePlayer (JSMath.mk Real.exp Real.sin Real.cos Real.sqrt Real.pi) W
              (subStepTime frameDeltaTime)
              ((subStep (JSMath.mk Real.exp Real.sin Real.cos Real.sqrt Real.pi) W
                (subStepTime frameDeltaTime))^[j]
                (runFrames (JSMath.mk Real.exp Real.sin Real.cos Real.sqrt Real.pi) pre
                  { (restingAt (-100) : Sim ℝ) with isVRMode := true }))) :=
  vr_recovery_never_fires (JSMath.mk Real.exp Real.sin Real.cos Real.sqrt Real.pi)
    [(constantWorld none, 1 / 60), (constantWorld none, 1 / 60)]
    { (restingAt (-100) : Sim ℝ) with isVRMode := true } rfl
    (by norm_num [restingAt, initialSim, Vec3.zero])

end VRRecovery

end Stereo3D
